import Mathlib

/-!
Verification of the MSP (Multiwii Serial Protocol) codec and session layer of
the `@husky-dev/msp` library, shallowly embedded from the TypeScript sources
(`src/utils.ts`, `src/msg.ts`, `src/index.ts`, `src/codes.ts`).

Conventions of the embedding:

* A Node.js `Buffer` is a `List Nat` whose meaningful elements are bytes.
  Writing a value into a buffer cell truncates it modulo 256, exactly as
  `Buffer` element assignment does.
* The indexed read `buff[i]` yields `Option Nat`; `none` models the JavaScript
  value `undefined` produced by an out-of-range read.
* `Buffer.readUInt8 / readUInt16LE / readUInt32LE / readInt8 / readInt16LE /
  readInt32LE` throw a range error when the read would run past the end of the
  buffer; fallible computations therefore live in `Except String`.
* JavaScript numbers are modelled by `Nat` and `Int`; the handful of scaled
  sensor readings (divisions such as `/ 10` or `* (4 / 16.4)`) are modelled by
  exact rationals `Rat`.  No property proved in this file depends on IEEE-754
  rounding of those scale factors.
* JavaScript exceptions that propagate out of a function are modelled by the
  `Except.error` branch, and an exception escaping the `onData` event handler
  is recorded in the `threw` flag of `OnDataResult`.
-/

deriving instance DecidableEq for Except

set_option maxRecDepth 8000

namespace MSP

/-- A Node.js `Buffer`: a sequence of bytes. -/
abbrev Buffer := List Nat

/-- Node throws `ERR_OUT_OF_RANGE` when a `readUIntXX`-style accessor is given
an offset past the end of the buffer. -/
def rangeError : String := "ERR_OUT_OF_RANGE"

/-- `buff.readUInt8(o)`: one byte, throws when out of range. -/
def readUInt8 (b : Buffer) (o : Nat) : Except String Nat :=
  if o + 1 ≤ b.length then .ok (b.getD o 0) else .error rangeError

/-- `buff.readUInt16LE(o)`: two bytes, little-endian, throws when out of range. -/
def readUInt16LE (b : Buffer) (o : Nat) : Except String Nat :=
  if o + 2 ≤ b.length then .ok (b.getD o 0 + 256 * b.getD (o + 1) 0)
  else .error rangeError

/-- `buff.readUInt32LE(o)`: four bytes, little-endian, throws when out of range. -/
def readUInt32LE (b : Buffer) (o : Nat) : Except String Nat :=
  if o + 4 ≤ b.length then
    .ok (b.getD o 0 + 256 * b.getD (o + 1) 0 + 65536 * b.getD (o + 2) 0 +
      16777216 * b.getD (o + 3) 0)
  else .error rangeError

/-- Reinterpret an unsigned value below `m` as a signed (two-complement) value. -/
def asSigned (m : Nat) (v : Nat) : Int :=
  if 2 * v < m then (v : Int) else (v : Int) - (m : Int)

/-- `buff.readInt8(o)`. -/
def readInt8 (b : Buffer) (o : Nat) : Except String Int :=
  (asSigned 256) <$> readUInt8 b o

/-- `buff.readInt16LE(o)`. -/
def readInt16LE (b : Buffer) (o : Nat) : Except String Int :=
  (asSigned 65536) <$> readUInt16LE b o

/-- `buff.readInt32LE(o)`. -/
def readInt32LE (b : Buffer) (o : Nat) : Except String Int :=
  (asSigned 4294967296) <$> readUInt32LE b o

/-- `buff.slice(s, e)` for `s ≤ e`; clamps to the buffer length. -/
def jsSlice (b : Buffer) (s e : Nat) : Buffer := (b.drop s).take (e - s)

/-- Render a possibly-`undefined` number the way a JavaScript template literal
does. -/
def jsNumToString : Option Nat → String
  | some n => toString n
  | none => "undefined"

/-! ## `src/utils.ts` — framing codec and checksum engine -/

/-- One step of the `crc8_dvb_s2` inner loop: shift left, reduce by the
polynomial 0xD5 when the top bit was set (all modulo 256). -/
def crc8DvbS2Bit (crc : Nat) : Nat :=
  if crc &&& 0x80 ≠ 0 then ((crc <<< 1) &&& 0xff) ^^^ 0xd5
  else (crc <<< 1) &&& 0xff

/-- `crc8DvbS2(crc, ch)` from `src/utils.ts`: XOR in the byte, then run the
inner loop eight times. -/
def crc8DvbS2 (crc ch : Nat) : Nat := crc8DvbS2Bit^[8] (crc ^^^ ch)

/-- `crc8DvbS2Data(data, start, end)` from `src/utils.ts`: fold `crc8DvbS2`
over the index range `[start, end)` starting from 0.  An index past the end of
the buffer reads `undefined`, which the bitwise operations inside `crc8DvbS2`
coerce to 0; `List.getD _ _ 0` mirrors that. -/
def crc8DvbS2Data (data : Buffer) (start stop : Nat) : Nat :=
  (List.range' start (stop - start)).foldl
    (fun crc ii => crc8DvbS2 crc (data.getD ii 0)) 0

/-- Specification-side form of the CRC: fold `crc8DvbS2` over a byte list,
seed 0.  Used to state checksum properties. -/
def crc8OverList (bs : List Nat) : Nat := bs.foldl crc8DvbS2 0

/-- `encodeMessageV1(code, data)` from `src/utils.ts`: `$ M <`, length byte,
code byte, payload, XOR checksum.  Buffer cell assignment truncates modulo
256, hence the `% 256` on every stored byte. -/
def encodeMessageV1 (code : Nat) (data : Buffer) : Buffer :=
  let dataLength := data.length
  let body := data.map (fun b => b % 256)
  let checksum := body.foldl (fun c b => c ^^^ b) ((dataLength % 256) ^^^ (code % 256))
  [36, 77, 60, dataLength % 256, code % 256] ++ body ++ [checksum % 256]

/-- `encodeMessageV2(code, data)` from `src/utils.ts`: `$ X <`, flag 0, 16-bit
code and length (little-endian), payload, CRC8/DVB-S2 over the byte range
from the flag byte up to (not including) the final checksum cell.  At the
moment the CRC is computed the final cell still holds the 0 written by
`Buffer.alloc`, which the `++ [0]` placeholder mirrors (the range excludes it
anyway). -/
def encodeMessageV2 (code : Nat) (data : Buffer) : Buffer :=
  let dataLength := data.length
  let bufferSize := dataLength + 9
  let body := data.map (fun b => b % 256)
  let head : Buffer :=
    [36, 88, 60, 0, code % 256, (code >>> 8) % 256, dataLength % 256, (dataLength >>> 8) % 256]
  let crc := crc8DvbS2Data (head ++ body ++ [0]) 3 (bufferSize - 1)
  head ++ body ++ [crc % 256]

/-- `encodeMessage(code, payload)` from `src/utils.ts`: V1 for codes up to
254, V2 otherwise. -/
def encodeMessage (code : Nat) (payload : Buffer) : Buffer :=
  if code ≤ 254 then encodeMessageV1 code payload else encodeMessageV2 code payload

/-- The `MSPDecodeResult` union from `src/utils.ts`.  The `code`, `len` and
`checksum` fields are read by plain indexing and may be `undefined`, hence
`Option Nat`. -/
inductive MSPDecodeResult where
  | success (code : Option Nat) (len : Option Nat) (payload : Buffer) (checksum : Option Nat)
  | failure (code : Option Nat) (error : String)
deriving Repr, DecidableEq

/-- The error message built for an unsupported-code response. -/
def unsupportedMsg (code : Option Nat) : String :=
  "MSP code " ++ jsNumToString code ++ " is not supported by the flight controller"

/-- `decodeMessageV1(buff)` from `src/utils.ts`.  All reads are plain index
accesses, so this never throws.  When the length byte is `undefined`
(buffer shorter than 4 bytes), `buff.slice(5, 5 + undefined)` is
`buff.slice(5, NaN)` which is empty, and `buff[5 + undefined]` is
`buff[NaN]`, which is `undefined`. -/
def decodeMessageV1 (buff : Buffer) : MSPDecodeResult :=
  let symbol := buff[2]?
  let code := buff[4]?
  if symbol = some 33 then .failure code (unsupportedMsg code)
  else
    match buff[3]? with
    | some len => .success code (some len) (jsSlice buff 5 (5 + len)) buff[5 + len]?
    | none => .success code none [] none

/-- `decodeMessageV2(buff)` from `src/utils.ts`.  The 16-bit code read at
offset 4 happens before the unsupported-marker check, so a buffer shorter
than 6 bytes makes the whole decode throw. -/
def decodeMessageV2 (buff : Buffer) : Except String MSPDecodeResult :=
  let symbol := buff[2]?
  match readUInt16LE buff 4 with
  | .error e => .error e
  | .ok code =>
    if symbol = some 33 then .ok (.failure (some code) (unsupportedMsg (some code)))
    else
      match readUInt16LE buff 6 with
      | .error e => .error e
      | .ok len =>
        let payload := if len ≠ 0 then jsSlice buff 8 (8 + len) else []
        .ok (.success (some code) (some len) payload buff[buff.length - 1]?)

/-- `decodeMessage(buff)` from `src/utils.ts`: the second byte selects the
layout — `M` (77) means V1, anything else is decoded as V2. -/
def decodeMessage (buff : Buffer) : Except String MSPDecodeResult :=
  if buff[1]? = some 77 then .ok (decodeMessageV1 buff) else decodeMessageV2 buff

/-- `push8(arr, val)` from `src/utils.ts`. -/
def push8 (arr : List Nat) (val : Nat) : List Nat := arr ++ [0xff &&& val]

/-- `push16(arr, val)` from `src/utils.ts`: low byte, then `val >> 8`
(not masked). -/
def push16 (arr : List Nat) (val : Nat) : List Nat := arr ++ [0x00ff &&& val, val >>> 8]

/-- `push32(arr, val)` from `src/utils.ts`. -/
def push32 (arr : List Nat) (val : Nat) : List Nat :=
  push8 (push8 (push8 (push8 arr val) (val >>> 8)) (val >>> 16)) (val >>> 24)

/-- `Buffer.from(array)`: every element is coerced to a byte. -/
def bufferFrom (arr : List Nat) : Buffer := arr.map (fun b => b % 256)

/-! ## `buffToDataView` — the read cursor over a payload

The `BuffDataView` object returned by `buffToDataView` in `src/utils.ts`
holds the buffer and a mutable offset; every `readXX` method returns the
value at the current offset and advances it.  We model a computation against
such a view as a state-passing function. -/

/-- A computation over a `BuffDataView`: takes the buffer and the current
offset, produces a value and the new offset, or throws. -/
def ReadM (α : Type) := Buffer → Nat → Except String (α × Nat)

/-- Return a value without consuming input. -/
def ReadM.pure {α : Type} (a : α) : ReadM α := fun _ off => .ok (a, off)

/-- Sequence two view computations; an exception short-circuits. -/
def ReadM.bind {α β : Type} (m : ReadM α) (f : α → ReadM β) : ReadM β :=
  fun buff off =>
    match m buff off with
    | .error e => .error e
    | .ok (a, off1) => f a buff off1

instance : Monad ReadM where
  pure := ReadM.pure
  bind := ReadM.bind

/-- Run a view computation from offset 0 (a freshly created view), keeping
only the value. -/
def ReadM.run {α : Type} (m : ReadM α) (buff : Buffer) : Except String α :=
  match m buff 0 with
  | .error e => .error e
  | .ok (a, _) => .ok a

/-- `data.readU8()`. -/
def readU8 : ReadM Nat := fun buff off =>
  match readUInt8 buff off with
  | .error e => .error e
  | .ok v => .ok (v, off + 1)

/-- `data.readU16()`. -/
def readU16 : ReadM Nat := fun buff off =>
  match readUInt16LE buff off with
  | .error e => .error e
  | .ok v => .ok (v, off + 2)

/-- `data.readU32()`. -/
def readU32 : ReadM Nat := fun buff off =>
  match readUInt32LE buff off with
  | .error e => .error e
  | .ok v => .ok (v, off + 4)

/-- `data.read8()`. -/
def read8 : ReadM Int := fun buff off =>
  match readInt8 buff off with
  | .error e => .error e
  | .ok v => .ok (v, off + 1)

/-- `data.read16()`. -/
def read16 : ReadM Int := fun buff off =>
  match readInt16LE buff off with
  | .error e => .error e
  | .ok v => .ok (v, off + 2)

/-- `data.read32()`. -/
def read32 : ReadM Int := fun buff off =>
  match readInt32LE buff off with
  | .error e => .error e
  | .ok v => .ok (v, off + 4)

/-- `data.length()`: the length of the underlying buffer. -/
def viewLength : ReadM Nat := fun buff off => .ok (buff.length, off)

/-- `data.remaining()`. -/
def viewRemaining : ReadM Nat := fun buff off => .ok (buff.length - off, off)

/-- Run a one-item computation `n` times, collecting the results — the shape
of every counted `for` loop in `src/msg.ts`. -/
def readList {α : Type} : Nat → ReadM α → ReadM (List α)
  | 0, _ => pure []
  | n + 1, p => do
    let x ← p
    let xs ← readList n p
    pure (x :: xs)

/-- `data.readText()`: one length byte, then that many character codes. -/
def readText : ReadM String := do
  let size ← readU8
  let cs ← readList size readU8
  pure (String.mk (cs.map Char.ofNat))

/-- A fixed-count character loop
(`for (i = 0; i < n; i++) s += String.fromCharCode(data.readU8())`). -/
def readChars (n : Nat) : ReadM String := do
  let cs ← readList n readU8
  pure (String.mk (cs.map Char.ofNat))

/-- `x.toFixed(2)` then `parseFloat`, on exact rationals: round to two decimal
places.  (The original operates on IEEE-754 doubles; the difference is
immaterial to everything proved here.) -/
def roundTo2 (q : Rat) : Rat := (round (q * 100) : Int) / 100

/-- Iteration count of `for (let i = 0; i < bound; i++)` when `bound` is the
JavaScript quotient `len / d` — a fraction, so the loop runs `⌈len / d⌉`
times (the final partial record makes the reads throw, exactly as the
original throws on a short buffer). -/
def jsLoopCount (len d : Nat) : Nat := (len + d - 1) / d

/-! ## `src/codes.ts` — the message code enumeration (excerpt used by the
parsers and the session layer) -/

namespace MSPCodes

def MSP_API_VERSION : Nat := 1
def MSP_FC_VARIANT : Nat := 2
def MSP_FC_VERSION : Nat := 3
def MSP_BOARD_INFO : Nat := 4
def MSP_BUILD_INFO : Nat := 5
def MSP_NAME : Nat := 10
def MSP_SET_NAME : Nat := 11
def MSP_BATTERY_CONFIG : Nat := 32
def MSP_SET_BATTERY_CONFIG : Nat := 33
def MSP_MODE_RANGES : Nat := 34
def MSP_SET_MODE_RANGE : Nat := 35
def MSP_SET_FEATURE_CONFIG : Nat := 37
def MSP_SET_BOARD_ALIGNMENT_CONFIG : Nat := 39
def MSP_CURRENT_METER_CONFIG : Nat := 40
def MSP_SET_CURRENT_METER_CONFIG : Nat := 41
def MSP_SET_MIXER_CONFIG : Nat := 43
def MSP_SET_RX_CONFIG : Nat := 45
def MSP_LED_COLORS : Nat := 46
def MSP_SET_RSSI_CONFIG : Nat := 51
def MSP_SET_ADJUSTMENT_RANGE : Nat := 53
def MSP_VOLTAGE_METER_CONFIG : Nat := 56
def MSP_SET_VOLTAGE_METER_CONFIG : Nat := 57
def MSP_SONAR : Nat := 58
def MSP_PID_CONTROLLER : Nat := 59
def MSP_SET_PID_CONTROLLER : Nat := 60
def MSP_SET_ARMING_CONFIG : Nat := 62
def MSP_RX_MAP : Nat := 64
def MSP_SET_LOOP_TIME : Nat := 74
def MSP_SET_FAILSAFE_CONFIG : Nat := 76
def MSP_RXFAIL_CONFIG : Nat := 77
def MSP_SET_RXFAIL_CONFIG : Nat := 78
def MSP_BLACKBOX_CONFIG : Nat := 80
def MSP_VTX_CONFIG : Nat := 88
def MSP_SENSOR_CONFIG : Nat := 96
def MSP_STATUS : Nat := 101
def MSP_RAW_IMU : Nat := 102
def MSP_SERVO : Nat := 103
def MSP_MOTOR : Nat := 104
def MSP_RC : Nat := 105
def MSP_RAW_GPS : Nat := 106
def MSP_COMP_GPS : Nat := 107
def MSP_ATTITUDE : Nat := 108
def MSP_ALTITUDE : Nat := 109
def MSP_ANALOG : Nat := 110
def MSP_PID : Nat := 112
def MSP_SERVO_CONFIGURATIONS : Nat := 120
def MSP_MOTOR_3D_CONFIG : Nat := 124
def MSP_RC_DEADBAND : Nat := 125
def MSP_SENSOR_ALIGNMENT : Nat := 126
def MSP_LED_STRIP_MODECOLOR : Nat := 127
def MSP_VOLTAGE_METERS : Nat := 128
def MSP_CURRENT_METERS : Nat := 129
def MSP_BATTERY_STATE : Nat := 130
def MSP_MOTOR_CONFIG : Nat := 131
def MSP_GPS_CONFIG : Nat := 132
def MSP_GPS_RESCUE : Nat := 135
def MSP_VTXTABLE_BAND : Nat := 137
def MSP_VTXTABLE_POWERLEVEL : Nat := 138
def MSP_MOTOR_TELEMETRY : Nat := 139
def MSP_STATUS_EX : Nat := 150
def MSP_UID : Nat := 160
def MSP_GPS_SV_INFO : Nat := 164
def MSP_DISPLAYPORT : Nat := 182
def MSP_BEEPER_CONFIG : Nat := 184
def MSP_SET_BEEPER_CONFIG : Nat := 185
def MSP_OSD_CANVAS : Nat := 189
def MSP_SET_RAW_RC : Nat := 200
def MSP_SET_PID : Nat := 202
def MSP_SET_RC_TUNING : Nat := 204
def MSP_ACC_CALIBRATION : Nat := 205
def MSP_MAG_CALIBRATION : Nat := 206
def MSP_RESET_CONF : Nat := 208
def MSP_SELECT_SETTING : Nat := 210
def MSP_SET_SERVO_CONFIGURATION : Nat := 212
def MSP_SET_MOTOR : Nat := 214
def MSP_SET_MOTOR_3D_CONFIG : Nat := 217
def MSP_SET_RC_DEADBAND : Nat := 218
def MSP_SET_RESET_CURR_PID : Nat := 219
def MSP_SET_SENSOR_ALIGNMENT : Nat := 220
def MSP_SET_MOTOR_CONFIG : Nat := 222
def MSP_SET_GPS_CONFIG : Nat := 223
def MSP_SET_GPS_RESCUE : Nat := 225
def MSP_SET_VTXTABLE_POWERLEVEL : Nat := 228
def MSP_MODE_RANGES_EXTRA : Nat := 238
def MSP_EEPROM_WRITE : Nat := 250
def MSP2_GET_TEXT : Nat := 0x3006
def MSP2_SET_TEXT : Nat := 0x3007

end MSPCodes

/-! ## `src/msg.ts` — the payload schema registry -/

structure MSPStatus where
  cycleTime : Nat
  i2cError : Nat
  activeSensors : Nat
  mode : Nat
  profile : Nat
deriving Repr, DecidableEq

def parseStatus : ReadM MSPStatus := do
  let cycleTime ← readU16
  let i2cError ← readU16
  let activeSensors ← readU16
  let mode ← readU32
  let profile ← readU8
  pure { cycleTime, i2cError, activeSensors, mode, profile }

structure MSPStatusEx where
  cycleTime : Nat
  i2cError : Nat
  activeSensors : Nat
  mode : Nat
  profile : Nat
  cpuload : Nat
  numProfiles : Nat
  rateProfile : Nat
  armingDisableCount : Nat
  armingDisableFlags : Nat
  configStateFlag : Nat
deriving Repr, DecidableEq

def parseStatusEx : ReadM MSPStatusEx := do
  let cycleTime ← readU16
  let i2cError ← readU16
  let activeSensors ← readU16
  let mode ← readU32
  let profile ← readU8
  let cpuload ← readU16
  let numProfiles ← readU8
  let rateProfile ← readU8
  -- Read flight mode flags (a counted loop of discarded bytes)
  let byteCount ← readU8
  let _ ← readList byteCount readU8
  let armingDisableCount ← readU8
  let armingDisableFlags ← readU32
  let configStateFlag ← readU8
  pure { cycleTime, i2cError, activeSensors, mode, profile, cpuload, numProfiles,
         rateProfile, armingDisableCount, armingDisableFlags, configStateFlag }

structure MSPRawIMU where
  accelerometer : List Rat
  gyroscope : List Rat
  magnetometer : List Rat
deriving Repr, DecidableEq

def parseRawIMU : ReadM MSPRawIMU := do
  let a1 ← read16
  let a2 ← read16
  let a3 ← read16
  let g1 ← read16
  let g2 ← read16
  let g3 ← read16
  let m1 ← read16
  let m2 ← read16
  let m3 ← read16
  pure { accelerometer := [(a1 : Rat) / 2048, (a2 : Rat) / 2048, (a3 : Rat) / 2048],
         gyroscope := [(g1 : Rat) * (4 / 16.4), (g2 : Rat) * (4 / 16.4), (g3 : Rat) * (4 / 16.4)],
         magnetometer := [(m1 : Rat), (m2 : Rat), (m3 : Rat)] }

def parseServo : ReadM (List Nat) := do
  let len ← viewLength
  readList (jsLoopCount len 2) readU16

def parseMotor : ReadM (List Nat) := do
  let len ← viewLength
  readList (jsLoopCount len 2) readU16

structure MSPMotorTelemetry where
  rpm : Nat
  invalidPercent : Nat
  temperature : Nat
  voltage : Nat
  current : Nat
  consumption : Nat
deriving Repr, DecidableEq

def parseMotorTelemetry : ReadM (List MSPMotorTelemetry) := do
  let telemMotorCount ← readU8
  readList telemMotorCount (do
    let rpm ← readU32
    let invalidPercent ← readU16
    let temperature ← readU8
    let voltage ← readU16
    let current ← readU16
    let consumption ← readU16
    pure { rpm, invalidPercent, temperature, voltage, current, consumption })

def parseRC : ReadM (List Nat) := do
  let len ← viewLength
  readList (jsLoopCount len 2) readU16

structure MSPRawGPS where
  fix : Nat
  numSat : Nat
  lat : Int
  lon : Int
  alt : Nat
  speed : Nat
  groundCourse : Nat
deriving Repr, DecidableEq

def parseRawGPS : ReadM MSPRawGPS := do
  let fix ← readU8
  let numSat ← readU8
  let lat ← read32
  let lon ← read32
  let alt ← readU16
  let speed ← readU16
  let groundCourse ← readU16
  pure { fix, numSat, lat, lon, alt, speed, groundCourse }

structure MSPCompGps where
  distanceToHome : Nat
  directionToHome : Nat
  update : Nat
deriving Repr, DecidableEq

def parseCompGPS : ReadM MSPCompGps := do
  let distanceToHome ← readU16
  let directionToHome ← readU16
  let update ← readU8
  pure { distanceToHome, directionToHome, update }

def parseAttitude : ReadM (List Rat) := do
  let x ← read16
  let y ← read16
  let z ← read16
  pure [(x : Rat) / 10, (y : Rat) / 10, (z : Rat) / 10]

def parseAltitude : ReadM Rat := do
  let v ← read32
  pure (roundTo2 ((v : Rat) / 100))

def parseSonar : ReadM Int := read32

structure MSPAnalog where
  voltage : Rat
  mAhdrawn : Nat
  rssi : Nat
  amperage : Rat
deriving Repr, DecidableEq

def parseAnalog : ReadM MSPAnalog := do
  let v ← readU8
  let mAhdrawn ← readU16
  let rssi ← readU16
  let a ← read16
  pure { voltage := (v : Rat) / 10, mAhdrawn, rssi, amperage := (a : Rat) / 100 }

structure MSPVoltageMeter where
  id : Nat
  voltage : Rat
deriving Repr, DecidableEq

def parseVoltageMeters : ReadM (List MSPVoltageMeter) := do
  let len ← viewLength
  readList (jsLoopCount len 2) (do
    let id ← readU8
    let v ← readU8
    pure { id, voltage := (v : Rat) / 10 })

structure MSPCurrentMeter where
  id : Nat
  mAhDrawn : Nat
  amperage : Rat
deriving Repr, DecidableEq

def parseCurrentMeters : ReadM (List MSPCurrentMeter) := do
  let len ← viewLength
  readList (jsLoopCount len 5) (do
    let id ← readU8
    let mAhDrawn ← readU16
    let a ← readU16
    pure { id, mAhDrawn, amperage := (a : Rat) / 1000 })

structure MSPBatteryState where
  cellCount : Nat
  capacity : Nat
  voltage : Rat
  mAhDrawn : Nat
  amperage : Rat
  batteryState : Nat
deriving Repr, DecidableEq

def parseBatteryState : ReadM MSPBatteryState := do
  let cellCount ← readU8
  let capacity ← readU16
  let v ← readU8
  let mAhDrawn ← readU16
  let a ← readU16
  let batteryState ← readU8
  pure { cellCount, capacity, voltage := (v : Rat) / 10, mAhDrawn,
         amperage := (a : Rat) / 100, batteryState }

structure MSPVoltageMeterConfig where
  id : Nat
  sensorType : Nat
  vbatscale : Nat
  vbatresdivval : Nat
  vbatresdivmultiplier : Nat
deriving Repr, DecidableEq

def parseVoltageMeterConfig : ReadM (List MSPVoltageMeterConfig) := do
  let voltageMeterCount ← readU8
  let items ← readList voltageMeterCount (do
    let subframeLength ← readU8
    if subframeLength ≠ 5 then do
      let _ ← readList subframeLength readU8
      pure none
    else do
      let id ← readU8
      let sensorType ← readU8
      let vbatscale ← readU8
      let vbatresdivval ← readU8
      let vbatresdivmultiplier ← readU8
      pure (some { id, sensorType, vbatscale, vbatresdivval, vbatresdivmultiplier }))
  pure (items.filterMap id)

structure MSPCurrentMeterConfig where
  id : Nat
  sensorType : Nat
  scale : Int
  offset : Int
deriving Repr, DecidableEq

def parseCurrentMeterConfig : ReadM (List MSPCurrentMeterConfig) := do
  let currentMeterCount ← readU8
  let items ← readList currentMeterCount (do
    let subframeLength ← readU8
    if subframeLength ≠ 6 then do
      let _ ← readList subframeLength readU8
      pure none
    else do
      let id ← readU8
      let sensorType ← readU8
      let scale ← read16
      let offset ← read16
      pure (some { id, sensorType, scale, offset }))
  pure (items.filterMap id)

structure MSPBatteryConfig where
  vbatmincellvoltage : Rat
  vbatmaxcellvoltage : Rat
  vbatwarningcellvoltage : Rat
  capacity : Nat
  voltageMeterSource : Nat
  currentMeterSource : Nat
deriving Repr, DecidableEq

def parseBatteryConfig : ReadM MSPBatteryConfig := do
  let vmin ← readU8
  let vmax ← readU8
  let vwarn ← readU8
  let capacity ← readU16
  let voltageMeterSource ← readU8
  let currentMeterSource ← readU8
  pure { vbatmincellvoltage := (vmin : Rat) / 10, vbatmaxcellvoltage := (vmax : Rat) / 10,
         vbatwarningcellvoltage := (vwarn : Rat) / 10, capacity,
         voltageMeterSource, currentMeterSource }

structure MSPMotorConfig where
  minthrottle : Nat
  maxthrottle : Nat
  mincommand : Nat
  motorCount : Nat
  motorPoles : Nat
  useDshotTelemetry : Bool
  useEscSensor : Bool
deriving Repr, DecidableEq

def parseMotorConfig : ReadM MSPMotorConfig := do
  let minthrottle ← readU16
  let maxthrottle ← readU16
  let mincommand ← readU16
  let motorCount ← readU8
  let motorPoles ← readU8
  let dshot ← readU8
  let esc ← readU8
  pure { minthrottle, maxthrottle, mincommand, motorCount, motorPoles,
         useDshotTelemetry := dshot ≠ 0, useEscSensor := esc ≠ 0 }

structure MSPApiVersion where
  mspProtocolVersion : Nat
  apiVersion : String
deriving Repr, DecidableEq

def parseApiVersion : ReadM MSPApiVersion := do
  let mspProtocolVersion ← readU8
  let major ← readU8
  let minor ← readU8
  pure { mspProtocolVersion, apiVersion := toString major ++ "." ++ toString minor ++ ".0" }

def parseFcVariant : ReadM String := readChars 4

def parseFcVersion : ReadM String := do
  let a ← readU8
  let b ← readU8
  let c ← readU8
  pure (toString a ++ "." ++ toString b ++ "." ++ toString c)

def parseBuildInfo : ReadM String := do
  let dateChars ← readList 11 readU8
  let timeChars ← readList 8 readU8
  pure (String.mk ((dateChars ++ [32] ++ timeChars).map Char.ofNat))

structure MSPBoardInfo where
  boardIdentifier : String
  boardVersion : Nat
  boardType : Nat
  targetCapabilities : Nat
  targetName : String
  boardName : String
  manufacturerId : String
  signature : List Nat
  mcuTypeId : Nat
deriving Repr, DecidableEq

/-- `parseBoardInfo` from `src/msg.ts` (the shipped revision: the
version-gated reads are commented out, so nothing past `mcuTypeId` is read). -/
def parseBoardInfo : ReadM MSPBoardInfo := do
  let boardIdentifier ← readChars 4
  let boardVersion ← readU16
  let boardType ← readU8
  let targetCapabilities ← readU8
  let targetName ← readText
  let boardName ← readText
  let manufacturerId ← readText
  let signature ← readList 32 readU8
  let mcuTypeId ← readU8
  pure { boardIdentifier, boardVersion, boardType, targetCapabilities, targetName,
         boardName, manufacturerId, signature, mcuTypeId }

def parseNameLoop : Nat → String → ReadM String
  | 0, value => pure value
  | n + 1, value => do
    let char ← readU8
    if char = 0 then pure value
    else parseNameLoop n (value.push (Char.ofNat char))

/-- `parseName`: read up to `data.length()` bytes, stopping at a NUL. -/
def parseName : ReadM String := do
  let len ← viewLength
  parseNameLoop len ""

/-- `composeSetName(name)`: at most 64 character codes, each truncated to a
byte by `push8`, wrapped by `Buffer.from`. -/
def composeSetName (name : String) : Buffer :=
  bufferFrom ((name.toList.take 64).foldl (fun buffer c => push8 buffer c.toNat) [])

def parseUID : ReadM String := do
  let u0 ← readU32
  let u1 ← readU32
  let u2 ← readU32
  pure (String.mk (Nat.toDigits 16 u0) ++ String.mk (Nat.toDigits 16 u1) ++
    String.mk (Nat.toDigits 16 u2))

structure MSPGetText where
  type : Nat
  value : String
deriving Repr, DecidableEq

def parseGetText : ReadM MSPGetText := do
  let textType ← readU8
  let value ← readText
  pure { type := textType, value }

structure MSPBeeperConfig where
  disabledMask : Nat
  dshotBeaconTone : Nat
  dshotBeaconConditionsMask : Nat
deriving Repr, DecidableEq

def parseBeeperConfig : ReadM MSPBeeperConfig := do
  let disabledMask ← readU32
  let dshotBeaconTone ← readU8
  let dshotBeaconConditionsMask ← readU32
  pure { disabledMask, dshotBeaconTone, dshotBeaconConditionsMask }

structure MSPServoConfiguration where
  min : Nat
  max : Nat
  middle : Nat
  rate : Int
  indexOfChannelToForward : Nat
  reversedInputSources : Nat
deriving Repr, DecidableEq

def parseServoConfigurations : ReadM (List MSPServoConfiguration) := do
  let len ← viewLength
  if len % 12 = 0 then
    readList (len / 12) (do
      let mn ← readU16
      let mx ← readU16
      let middle ← readU16
      let rate ← read8
      let indexOfChannelToForward ← readU8
      let reversedInputSources ← readU32
      pure { min := mn, max := mx, middle, rate, indexOfChannelToForward,
             reversedInputSources })
  else pure []

/-- `MSPModeRange`; the nested `range: { start, end }` object is flattened to
`rangeStart` / `rangeEnd`. -/
structure MSPModeRange where
  id : Nat
  auxChannelIndex : Nat
  rangeStart : Nat
  rangeEnd : Nat
deriving Repr, DecidableEq

def parseModeRanges : ReadM (List MSPModeRange) := do
  let len ← viewLength
  readList (jsLoopCount len 4) (do
    let id ← readU8
    let auxChannelIndex ← readU8
    let s ← readU8
    let e ← readU8
    pure { id, auxChannelIndex, rangeStart := 900 + s * 25, rangeEnd := 900 + e * 25 })

structure MSPModeRangeExtra where
  id : Nat
  modeLogic : Nat
  linkedTo : Nat
deriving Repr, DecidableEq

def parseModeRangesExtra : ReadM (List MSPModeRangeExtra) := do
  let modeRangeExtraCount ← readU8
  readList modeRangeExtraCount (do
    let id ← readU8
    let modeLogic ← readU8
    let linkedTo ← readU8
    pure { id, modeLogic, linkedTo })

structure MSPMotor3DConfig where
  deadband3dLow : Nat
  deadband3dHigh : Nat
  neutral : Nat
deriving Repr, DecidableEq

def parseMotor3DConfig : ReadM MSPMotor3DConfig := do
  let deadband3dLow ← readU16
  let deadband3dHigh ← readU16
  let neutral ← readU16
  pure { deadband3dLow, deadband3dHigh, neutral }

structure MSPRcDeadbandConfig where
  deadband : Nat
  yawDeadband : Nat
  altHoldDeadband : Nat
  deadband3dThrottle : Nat
deriving Repr, DecidableEq

def parseRcDeadbandConfig : ReadM MSPRcDeadbandConfig := do
  let deadband ← readU8
  let yawDeadband ← readU8
  let altHoldDeadband ← readU8
  let deadband3dThrottle ← readU16
  pure { deadband, yawDeadband, altHoldDeadband, deadband3dThrottle }

structure MSPGpsConfig where
  provider : Nat
  ubloxSbas : Nat
  autoConfig : Nat
  autoBaud : Nat
  homePointOnce : Nat
  ubloxUseGalileo : Nat
deriving Repr, DecidableEq

def parseGpsConfig : ReadM MSPGpsConfig := do
  let provider ← readU8
  let ubloxSbas ← readU8
  let autoConfig ← readU8
  let autoBaud ← readU8
  -- "Introduced in API version 1.43" — read unconditionally in the source
  let homePointOnce ← readU8
  let ubloxUseGalileo ← readU8
  pure { provider, ubloxSbas, autoConfig, autoBaud, homePointOnce, ubloxUseGalileo }

structure MSPGpsRescueConfig where
  angle : Nat
  returnAltitudeM : Nat
  descentDistanceM : Nat
  groundSpeed : Nat
  throttleMin : Nat
  throttleMax : Nat
  throttleHover : Nat
  sanityChecks : Nat
  minSats : Nat
  ascendRate : Nat
  descendRate : Nat
  allowArmingWithoutFix : Nat
  altitudeMode : Nat
  minStartDistM : Nat
  initialClimbM : Nat
deriving Repr, DecidableEq

def parseGpsRescue : ReadM MSPGpsRescueConfig := do
  let angle ← readU16
  let returnAltitudeM ← readU16
  let descentDistanceM ← readU16
  let groundSpeed ← readU16
  let throttleMin ← readU16
  let throttleMax ← readU16
  let throttleHover ← readU16
  let sanityChecks ← readU8
  let minSats ← readU8
  -- version-annotated fields, read unconditionally in the source
  let ascendRate ← readU16
  let descendRate ← readU16
  let allowArmingWithoutFix ← readU8
  let altitudeMode ← readU8
  let minStartDistM ← readU16
  let initialClimbM ← readU16
  pure { angle, returnAltitudeM, descentDistanceM, groundSpeed, throttleMin, throttleMax,
         throttleHover, sanityChecks, minSats, ascendRate, descendRate,
         allowArmingWithoutFix, altitudeMode, minStartDistM, initialClimbM }

structure MSPGpsSvInfo where
  numCh : Nat
  chn : List Nat
  svid : List Nat
  quality : List Nat
  cno : List Nat
deriving Repr, DecidableEq

def parseGpsSvInfo : ReadM MSPGpsSvInfo := do
  let numCh ← readU8
  let rows ← readList numCh (do
    let c ← readU8
    let s ← readU8
    let q ← readU8
    let n ← readU8
    pure (c, s, q, n))
  pure { numCh, chn := rows.map (·.1), svid := rows.map (·.2.1),
         quality := rows.map (·.2.2.1), cno := rows.map (·.2.2.2) }

structure MSPVtxConfig where
  vtxType : Nat
  vtxBand : Nat
  vtxChannel : Nat
  vtxPower : Nat
  vtxPitMode : Bool
  vtxFrequency : Nat
  vtxDeviceReady : Bool
  vtxLowPowerDisarm : Nat
  vtxPitModeFrequency : Nat
  vtxTableAvailable : Bool
  vtxTableBands : Nat
  vtxTableChannels : Nat
  vtxTablePowerLevels : Nat
  vtxTableClear : Bool
deriving Repr, DecidableEq

def parseVtxConfig : ReadM MSPVtxConfig := do
  let vtxType ← readU8
  let vtxBand ← readU8
  let vtxChannel ← readU8
  let vtxPower ← readU8
  let pit ← readU8
  let vtxFrequency ← readU16
  let ready ← readU8
  let vtxLowPowerDisarm ← readU8
  -- "Introduced in API version 1.42" — read unconditionally in the source
  let vtxPitModeFrequency ← readU16
  let avail ← readU8
  let vtxTableBands ← readU8
  let vtxTableChannels ← readU8
  let vtxTablePowerLevels ← readU8
  pure { vtxType, vtxBand, vtxChannel, vtxPower, vtxPitMode := pit ≠ 0, vtxFrequency,
         vtxDeviceReady := ready ≠ 0, vtxLowPowerDisarm, vtxPitModeFrequency,
         vtxTableAvailable := avail ≠ 0, vtxTableBands, vtxTableChannels,
         vtxTablePowerLevels, vtxTableClear := false }

structure MSPVtxTableBand where
  vtxTableBandNumber : Nat
  vtxTableBandName : String
  vtxTableBandLetter : String
  vtxTableBandIsFactoryBand : Bool
  vtxTableBandFrequencies : List Nat
deriving Repr, DecidableEq

def parseVtxTableBand : ReadM MSPVtxTableBand := do
  let vtxTableBandNumber ← readU8
  let bandNameLength ← readU8
  let vtxTableBandName ← readChars bandNameLength
  let letter ← readU8
  let factory ← readU8
  let bandFrequenciesLength ← readU8
  let vtxTableBandFrequencies ← readList bandFrequenciesLength readU16
  pure { vtxTableBandNumber, vtxTableBandName,
         vtxTableBandLetter := String.mk [Char.ofNat letter],
         vtxTableBandIsFactoryBand := factory ≠ 0, vtxTableBandFrequencies }

structure MSPVtxTablePowerLevel where
  vtxTablePowerLevelNumber : Nat
  vtxTablePowerLevelValue : Nat
  vtxTablePowerLevelLabel : String
deriving Repr, DecidableEq

def parseVtxTablePowerLevel : ReadM MSPVtxTablePowerLevel := do
  let vtxTablePowerLevelNumber ← readU8
  let vtxTablePowerLevelValue ← readU16
  let powerLabelLength ← readU8
  let vtxTablePowerLevelLabel ← readChars powerLabelLength
  pure { vtxTablePowerLevelNumber, vtxTablePowerLevelValue, vtxTablePowerLevelLabel }

structure MSPLedColor where
  h : Nat
  s : Nat
  v : Nat
deriving Repr, DecidableEq

def parseLedColors : ReadM (List MSPLedColor) := do
  let len ← viewLength
  readList (jsLoopCount len 4) (do
    let h ← readU16
    let s ← readU8
    let v ← readU8
    pure { h, s, v })

structure MSPLedStripModeColor where
  mode : Nat
  direction : Nat
  color : Nat
deriving Repr, DecidableEq

def parseLedStripModeColor : ReadM (List MSPLedStripModeColor) := do
  let len ← viewLength
  readList (jsLoopCount len 3) (do
    let mode ← readU8
    let direction ← readU8
    let color ← readU8
    pure { mode, direction, color })

structure MSPRxFailConfig where
  mode : Nat
  value : Nat
deriving Repr, DecidableEq

def parseRxFailConfig : ReadM (List MSPRxFailConfig) := do
  let len ← viewLength
  readList (jsLoopCount len 3) (do
    let mode ← readU8
    let value ← readU16
    pure { mode, value })

def parseRxMap : ReadM (List Nat) := do
  let len ← viewLength
  readList len readU8

structure MSPSensorConfig where
  accHardware : Nat
  baroHardware : Nat
  magHardware : Nat
deriving Repr, DecidableEq

def parseSensorConfig : ReadM MSPSensorConfig := do
  let accHardware ← readU8
  let baroHardware ← readU8
  let magHardware ← readU8
  pure { accHardware, baroHardware, magHardware }

structure MSPSensorAlignment where
  alignGyro : Nat
  alignAcc : Nat
  alignMag : Nat
  gyroDetectionFlags : Nat
  gyroToUse : Nat
  gyro1Align : Nat
  gyro2Align : Nat
deriving Repr, DecidableEq

def parseSensorAlignment : ReadM MSPSensorAlignment := do
  let alignGyro ← readU8
  let alignAcc ← readU8
  let alignMag ← readU8
  let gyroDetectionFlags ← readU8
  let gyroToUse ← readU8
  let gyro1Align ← readU8
  let gyro2Align ← readU8
  pure { alignGyro, alignAcc, alignMag, gyroDetectionFlags, gyroToUse,
         gyro1Align, gyro2Align }

structure MSPPid where
  p : Nat
  i : Nat
  d : Nat
deriving Repr, DecidableEq

def parsePid : ReadM (List MSPPid) := do
  let len ← viewLength
  readList (jsLoopCount len 3) (do
    let p ← readU8
    let i ← readU8
    let d ← readU8
    pure { p, i, d })

structure MSPBlackboxConfig where
  supported : Bool
  blackboxDevice : Nat
  blackboxRateNum : Nat
  blackboxRateDenom : Nat
  blackboxPDenom : Nat
  blackboxSampleRate : Nat
deriving Repr, DecidableEq

def parseBlackboxConfig : ReadM MSPBlackboxConfig := do
  let sup ← readU8
  let blackboxDevice ← readU8
  let blackboxRateNum ← readU8
  let blackboxRateDenom ← readU8
  let blackboxPDenom ← readU16
  -- "Introduced in API version 1.44" — read unconditionally in the source
  let blackboxSampleRate ← readU8
  pure { supported := sup &&& 1 ≠ 0, blackboxDevice, blackboxRateNum,
         blackboxRateDenom, blackboxPDenom, blackboxSampleRate }

structure MSPOsdCanvas where
  videoColsHD : Nat
  videoRowsHD : Nat
  videoBufferCharsHD : Nat
deriving Repr, DecidableEq

def parseOsdCanvas : ReadM MSPOsdCanvas := do
  let videoColsHD ← readU8
  let videoRowsHD ← readU8
  pure { videoColsHD, videoRowsHD, videoBufferCharsHD := videoColsHD * videoRowsHD }

/-- The result of `parseMsg`: a tagged union, one constructor per registered
code (the TypeScript objects additionally repeat the `code` and `name`;
`MSPMsg.msgName` recovers the name, and the constructor identity carries the
code).  The codes registered only as acknowledgements (`{ code, name }` with
no further fields) share the `ack` constructor, which records both. -/
inductive MSPMsg where
  | status (v : MSPStatus)
  | statusEx (v : MSPStatusEx)
  | rawIMU (v : MSPRawIMU)
  | servo (v : List Nat)
  | servoConfigurations (v : List MSPServoConfiguration)
  | motor (v : List Nat)
  | motorTelemetry (v : List MSPMotorTelemetry)
  | rc (v : List Nat)
  | rawGPS (v : MSPRawGPS)
  | compGPS (v : MSPCompGps)
  | attitude (v : List Rat)
  | altitude (v : Rat)
  | sonar (v : Int)
  | analog (v : MSPAnalog)
  | voltageMeters (v : List MSPVoltageMeter)
  | currentMeters (v : List MSPCurrentMeter)
  | batteryState (v : MSPBatteryState)
  | voltageMeterConfig (v : List MSPVoltageMeterConfig)
  | currentMeterConfig (v : List MSPCurrentMeterConfig)
  | batteryConfig (v : MSPBatteryConfig)
  | motorConfig (v : MSPMotorConfig)
  | apiVersion (v : MSPApiVersion)
  | fcVariant (v : String)
  | fcVersion (v : String)
  | buildInfo (v : String)
  | boardInfo (v : MSPBoardInfo)
  | name (v : String)
  | uid (v : String)
  | getText (v : MSPGetText)
  | beeperConfig (v : MSPBeeperConfig)
  | modeRanges (v : List MSPModeRange)
  | modeRangesExtra (v : List MSPModeRangeExtra)
  | motor3DConfig (v : MSPMotor3DConfig)
  | rcDeadbandConfig (v : MSPRcDeadbandConfig)
  | gpsConfig (v : MSPGpsConfig)
  | gpsRescue (v : MSPGpsRescueConfig)
  | gpsSvInfo (v : MSPGpsSvInfo)
  | vtxConfig (v : MSPVtxConfig)
  | vtxTableBand (v : MSPVtxTableBand)
  | vtxTablePowerLevel (v : MSPVtxTablePowerLevel)
  | ledColors (v : List MSPLedColor)
  | ledStripModeColor (v : List MSPLedStripModeColor)
  | rxFailConfig (v : List MSPRxFailConfig)
  | rxMap (v : List Nat)
  | sensorConfig (v : MSPSensorConfig)
  | sensorAlignment (v : MSPSensorAlignment)
  | pid (v : List MSPPid)
  | blackboxConfig (v : MSPBlackboxConfig)
  | osdCanvas (v : MSPOsdCanvas)
  | ack (code : Nat) (ackName : String)
deriving Repr, DecidableEq

open MSPCodes in
/-- `parseMsg(code, payload)` from `src/msg.ts`: create a view over the
payload and dispatch on the code; an unregistered code throws
`Unknown MSP code: <code>`.  Each registered case runs the corresponding
parser from offset 0; a parser that reads past the end of the payload throws,
and that exception propagates out of `parseMsg` (the `Except.error`). -/
def parseMsg (code : Nat) (payload : Buffer) : Except String MSPMsg :=
  if code = MSP_STATUS then MSPMsg.status <$> parseStatus.run payload
  else if code = MSP_STATUS_EX then MSPMsg.statusEx <$> parseStatusEx.run payload
  else if code = MSP_RAW_IMU then MSPMsg.rawIMU <$> parseRawIMU.run payload
  else if code = MSP_SERVO then MSPMsg.servo <$> parseServo.run payload
  else if code = MSP_SERVO_CONFIGURATIONS then
    MSPMsg.servoConfigurations <$> parseServoConfigurations.run payload
  else if code = MSP_MOTOR then MSPMsg.motor <$> parseMotor.run payload
  else if code = MSP_MOTOR_TELEMETRY then
    MSPMsg.motorTelemetry <$> parseMotorTelemetry.run payload
  else if code = MSP_RC then MSPMsg.rc <$> parseRC.run payload
  else if code = MSP_RAW_GPS then MSPMsg.rawGPS <$> parseRawGPS.run payload
  else if code = MSP_COMP_GPS then MSPMsg.compGPS <$> parseCompGPS.run payload
  else if code = MSP_ATTITUDE then MSPMsg.attitude <$> parseAttitude.run payload
  else if code = MSP_ALTITUDE then MSPMsg.altitude <$> parseAltitude.run payload
  else if code = MSP_SONAR then MSPMsg.sonar <$> parseSonar.run payload
  else if code = MSP_ANALOG then MSPMsg.analog <$> parseAnalog.run payload
  else if code = MSP_VOLTAGE_METERS then
    MSPMsg.voltageMeters <$> parseVoltageMeters.run payload
  else if code = MSP_CURRENT_METERS then
    MSPMsg.currentMeters <$> parseCurrentMeters.run payload
  else if code = MSP_BATTERY_STATE then MSPMsg.batteryState <$> parseBatteryState.run payload
  else if code = MSP_VOLTAGE_METER_CONFIG then
    MSPMsg.voltageMeterConfig <$> parseVoltageMeterConfig.run payload
  else if code = MSP_CURRENT_METER_CONFIG then
    MSPMsg.currentMeterConfig <$> parseCurrentMeterConfig.run payload
  else if code = MSP_BATTERY_CONFIG then
    MSPMsg.batteryConfig <$> parseBatteryConfig.run payload
  else if code = MSP_SET_BATTERY_CONFIG then
    .ok (MSPMsg.ack MSP_SET_BATTERY_CONFIG "MSP_SET_BATTERY_CONFIG")
  else if code = MSP_MOTOR_CONFIG then MSPMsg.motorConfig <$> parseMotorConfig.run payload
  else if code = MSP_DISPLAYPORT then .ok (MSPMsg.ack MSP_DISPLAYPORT "MSP_DISPLAYPORT")
  else if code = MSP_SET_RAW_RC then .ok (MSPMsg.ack MSP_SET_RAW_RC "MSP_SET_RAW_RC")
  else if code = MSP_SET_PID then .ok (MSPMsg.ack MSP_SET_PID "MSP_SET_PID")
  else if code = MSP_SET_RC_TUNING then .ok (MSPMsg.ack MSP_SET_RC_TUNING "MSP_SET_RC_TUNING")
  else if code = MSP_ACC_CALIBRATION then
    .ok (MSPMsg.ack MSP_ACC_CALIBRATION "MSP_ACC_CALIBRATION")
  else if code = MSP_MAG_CALIBRATION then
    .ok (MSPMsg.ack MSP_MAG_CALIBRATION "MSP_MAG_CALIBRATION")
  else if code = MSP_SET_MOTOR_CONFIG then
    .ok (MSPMsg.ack MSP_SET_MOTOR_CONFIG "MSP_SET_MOTOR_CONFIG")
  else if code = MSP_SET_GPS_CONFIG then
    .ok (MSPMsg.ack MSP_SET_GPS_CONFIG "MSP_SET_GPS_CONFIG")
  else if code = MSP_SET_GPS_RESCUE then
    .ok (MSPMsg.ack MSP_SET_GPS_RESCUE "MSP_SET_GPS_RESCUE")
  else if code = MSP_SET_RSSI_CONFIG then
    .ok (MSPMsg.ack MSP_SET_RSSI_CONFIG "MSP_SET_RSSI_CONFIG")
  else if code = MSP_SET_FEATURE_CONFIG then
    .ok (MSPMsg.ack MSP_SET_FEATURE_CONFIG "MSP_SET_FEATURE_CONFIG")
  else if code = MSP_SET_BEEPER_CONFIG then
    .ok (MSPMsg.ack MSP_SET_BEEPER_CONFIG "MSP_SET_BEEPER_CONFIG")
  else if code = MSP_RESET_CONF then .ok (MSPMsg.ack MSP_RESET_CONF "MSP_RESET_CONF")
  else if code = MSP_SELECT_SETTING then
    .ok (MSPMsg.ack MSP_SELECT_SETTING "MSP_SELECT_SETTING")
  else if code = MSP_SET_SERVO_CONFIGURATION then
    .ok (MSPMsg.ack MSP_SET_SERVO_CONFIGURATION "MSP_SET_SERVO_CONFIGURATION")
  else if code = MSP_EEPROM_WRITE then .ok (MSPMsg.ack MSP_EEPROM_WRITE "MSP_EEPROM_WRITE")
  else if code = MSP_SET_CURRENT_METER_CONFIG then
    .ok (MSPMsg.ack MSP_SET_CURRENT_METER_CONFIG "MSP_SET_CURRENT_METER_CONFIG")
  else if code = MSP_SET_VOLTAGE_METER_CONFIG then
    .ok (MSPMsg.ack MSP_SET_VOLTAGE_METER_CONFIG "MSP_SET_VOLTAGE_METER_CONFIG")
  else if code = MSP_SET_MOTOR then .ok (MSPMsg.ack MSP_SET_MOTOR "MSP_SET_MOTOR")
  else if code = MSP_SET_VTXTABLE_POWERLEVEL then
    .ok (MSPMsg.ack MSP_SET_VTXTABLE_POWERLEVEL "MSP_SET_VTXTABLE_POWERLEVEL")
  else if code = MSP_SET_MODE_RANGE then
    .ok (MSPMsg.ack MSP_SET_MODE_RANGE "MSP_SET_MODE_RANGE")
  else if code = MSP_SET_ADJUSTMENT_RANGE then
    .ok (MSPMsg.ack MSP_SET_ADJUSTMENT_RANGE "MSP_SET_ADJUSTMENT_RANGE")
  else if code = MSP_SET_BOARD_ALIGNMENT_CONFIG then
    .ok (MSPMsg.ack MSP_SET_BOARD_ALIGNMENT_CONFIG "MSP_SET_BOARD_ALIGNMENT_CONFIG")
  else if code = MSP_PID_CONTROLLER then
    .ok (MSPMsg.ack MSP_PID_CONTROLLER "MSP_PID_CONTROLLER")
  else if code = MSP_SET_PID_CONTROLLER then
    .ok (MSPMsg.ack MSP_SET_PID_CONTROLLER "MSP_SET_PID_CONTROLLER")
  else if code = MSP_SET_LOOP_TIME then .ok (MSPMsg.ack MSP_SET_LOOP_TIME "MSP_SET_LOOP_TIME")
  else if code = MSP_SET_ARMING_CONFIG then
    .ok (MSPMsg.ack MSP_SET_ARMING_CONFIG "MSP_SET_ARMING_CONFIG")
  else if code = MSP_SET_RESET_CURR_PID then
    .ok (MSPMsg.ack MSP_SET_RESET_CURR_PID "MSP_SET_RESET_CURR_PID")
  else if code = MSP_SET_MOTOR_3D_CONFIG then
    .ok (MSPMsg.ack MSP_SET_MOTOR_3D_CONFIG "MSP_SET_MOTOR_3D_CONFIG")
  else if code = MSP_SET_MIXER_CONFIG then
    .ok (MSPMsg.ack MSP_SET_MIXER_CONFIG "MSP_SET_MIXER_CONFIG")
  else if code = MSP_SET_RC_DEADBAND then
    .ok (MSPMsg.ack MSP_SET_RC_DEADBAND "MSP_SET_RC_DEADBAND")
  else if code = MSP_SET_SENSOR_ALIGNMENT then
    .ok (MSPMsg.ack MSP_SET_SENSOR_ALIGNMENT "MSP_SET_SENSOR_ALIGNMENT")
  else if code = MSP_SET_RX_CONFIG then .ok (MSPMsg.ack MSP_SET_RX_CONFIG "MSP_SET_RX_CONFIG")
  else if code = MSP_SET_RXFAIL_CONFIG then
    .ok (MSPMsg.ack MSP_SET_RXFAIL_CONFIG "MSP_SET_RXFAIL_CONFIG")
  else if code = MSP_SET_FAILSAFE_CONFIG then
    .ok (MSPMsg.ack MSP_SET_FAILSAFE_CONFIG "MSP_SET_FAILSAFE_CONFIG")
  else if code = MSP_SET_NAME then .ok (MSPMsg.ack MSP_SET_NAME "MSP_SET_NAME")
  else if code = MSP_API_VERSION then MSPMsg.apiVersion <$> parseApiVersion.run payload
  else if code = MSP_FC_VARIANT then MSPMsg.fcVariant <$> parseFcVariant.run payload
  else if code = MSP_FC_VERSION then MSPMsg.fcVersion <$> parseFcVersion.run payload
  else if code = MSP_BUILD_INFO then MSPMsg.buildInfo <$> parseBuildInfo.run payload
  else if code = MSP_BOARD_INFO then MSPMsg.boardInfo <$> parseBoardInfo.run payload
  else if code = MSP_NAME then MSPMsg.name <$> parseName.run payload
  else if code = MSP_UID then MSPMsg.uid <$> parseUID.run payload
  else if code = MSP2_GET_TEXT then MSPMsg.getText <$> parseGetText.run payload
  else if code = MSP2_SET_TEXT then .ok (MSPMsg.ack MSP2_SET_TEXT "MSP2_SET_TEXT")
  else if code = MSP_BEEPER_CONFIG then MSPMsg.beeperConfig <$> parseBeeperConfig.run payload
  else if code = MSP_MODE_RANGES then MSPMsg.modeRanges <$> parseModeRanges.run payload
  else if code = MSP_MODE_RANGES_EXTRA then
    MSPMsg.modeRangesExtra <$> parseModeRangesExtra.run payload
  else if code = MSP_MOTOR_3D_CONFIG then
    MSPMsg.motor3DConfig <$> parseMotor3DConfig.run payload
  else if code = MSP_RC_DEADBAND then
    MSPMsg.rcDeadbandConfig <$> parseRcDeadbandConfig.run payload
  else if code = MSP_GPS_CONFIG then MSPMsg.gpsConfig <$> parseGpsConfig.run payload
  else if code = MSP_GPS_RESCUE then MSPMsg.gpsRescue <$> parseGpsRescue.run payload
  else if code = MSP_GPS_SV_INFO then MSPMsg.gpsSvInfo <$> parseGpsSvInfo.run payload
  else if code = MSP_VTX_CONFIG then MSPMsg.vtxConfig <$> parseVtxConfig.run payload
  else if code = MSP_VTXTABLE_BAND then MSPMsg.vtxTableBand <$> parseVtxTableBand.run payload
  else if code = MSP_VTXTABLE_POWERLEVEL then
    MSPMsg.vtxTablePowerLevel <$> parseVtxTablePowerLevel.run payload
  else if code = MSP_LED_COLORS then MSPMsg.ledColors <$> parseLedColors.run payload
  else if code = MSP_LED_STRIP_MODECOLOR then
    MSPMsg.ledStripModeColor <$> parseLedStripModeColor.run payload
  else if code = MSP_RXFAIL_CONFIG then MSPMsg.rxFailConfig <$> parseRxFailConfig.run payload
  else if code = MSP_RX_MAP then MSPMsg.rxMap <$> parseRxMap.run payload
  else if code = MSP_SENSOR_CONFIG then MSPMsg.sensorConfig <$> parseSensorConfig.run payload
  else if code = MSP_SENSOR_ALIGNMENT then
    MSPMsg.sensorAlignment <$> parseSensorAlignment.run payload
  else if code = MSP_PID then MSPMsg.pid <$> parsePid.run payload
  else if code = MSP_BLACKBOX_CONFIG then
    MSPMsg.blackboxConfig <$> parseBlackboxConfig.run payload
  else if code = MSP_OSD_CANVAS then MSPMsg.osdCanvas <$> parseOsdCanvas.run payload
  else .error ("Unknown MSP code: " ++ toString code)

/-! ## The version-gated `parseBoardInfo` revision (src/unnamed/part_004)

That revision of `msg.ts` passes the session ApiVersion (a string such as
`"1.43.0"`, or `undefined` before the version query) into the board-info
decoder and gates the trailing fields on it via `semver.gte`. -/

/-- Split a character list at the dots. -/
def splitDots : List Char → List (List Char)
  | [] => [[]]
  | c :: cs =>
    if c = '.' then [] :: splitDots cs
    else
      match splitDots cs with
      | [] => [[c]]
      | p :: ps => (c :: p) :: ps

/-- Read a nonempty all-digit character list as a number. -/
def parseNatChars (cs : List Char) : Option Nat :=
  if cs ≠ [] ∧ cs.all Char.isDigit then
    some (cs.foldl (fun n c => n * 10 + (c.toNat - 48)) 0)
  else none

/-- Modelled from the spec: the external `semver` package's `gte` on
dotted-triple versions — "standard dotted-triple numeric comparison (major,
then minor, then patch)". -/
def semverGte (a b : String) : Bool :=
  match (splitDots a.data).map (fun p => (parseNatChars p).getD 0),
        (splitDots b.data).map (fun p => (parseNatChars p).getD 0) with
  | [a1, a2, a3], [b1, b2, b3] =>
    b1 < a1 || (a1 = b1 && (b2 < a2 || (a2 = b2 && b3 ≤ a3)))
  | _, _ => false

def API_VERSION_1_42 : String := "1.42.0"
def API_VERSION_1_43 : String := "1.43.0"

/-- The board-info record of the version-gated revision: three optional
trailing fields. -/
structure MSPBoardInfoV where
  boardIdentifier : String
  boardVersion : Nat
  boardType : Nat
  targetCapabilities : Nat
  targetName : String
  boardName : String
  manufacturerId : String
  signature : List Nat
  mcuTypeId : Nat
  configurationState : Option Nat
  sampleRateHz : Option Nat
  configurationProblems : Option Nat
deriving Repr, DecidableEq

/-- `parseBoardInfo(data, apiVersion)` from the version-gated revision
(src/unnamed/part_004, lines 551-602): identical to the shipped decoder up to
`mcuTypeId`, then reads `configurationState` only when
`apiVersion && semver.gte(apiVersion, 1.42.0)`, and `sampleRateHz` plus
`configurationProblems` only when `apiVersion && semver.gte(apiVersion,
1.43.0)` (defaulting `configurationProblems` to 0 otherwise). -/
def parseBoardInfoV (apiVersion : Option String) : ReadM MSPBoardInfoV := do
  let boardIdentifier ← readChars 4
  let boardVersion ← readU16
  let boardType ← readU8
  let targetCapabilities ← readU8
  let targetName ← readText
  let boardName ← readText
  let manufacturerId ← readText
  let signature ← readList 32 readU8
  let mcuTypeId ← readU8
  let configurationState ←
    match apiVersion with
    | some v =>
      if semverGte v API_VERSION_1_42 then do
        let cs ← readU8
        pure (some cs)
      else pure none
    | none => pure none
  let gated ←
    match apiVersion with
    | some v =>
      if semverGte v API_VERSION_1_43 then do
        let sampleRateHz ← readU16
        let configurationProblems ← readU32
        pure (some sampleRateHz, some configurationProblems)
      else pure (none, some 0)
    | none => pure ((none : Option Nat), some 0)
  pure { boardIdentifier, boardVersion, boardType, targetCapabilities, targetName,
         boardName, manufacturerId, signature, mcuTypeId, configurationState,
         sampleRateHz := gated.1, configurationProblems := gated.2 }

/-! ## `src/index.ts` — `MultiwiiSerialProtocol`: session and correlation

The class holds `conencted : boolean` (the typo is the source spelling) and a
mutable list `callbacks` of pending entries `{ code, timeout, resolve,
reject }`.  We model each entry by its code and a promise identifier `pid`;
the promise outcomes live in a separate registry.  A JavaScript promise
settles at most once — a later `resolve`/`reject` call on a settled promise
is a no-op — which `settlePromise` mirrors by keeping the first settlement. -/

/-- A pending entry in `this.callbacks`, identified by its code and the
identity `pid` of its promise (which is also its timer identity). -/
structure MultiwiiCommandCallback where
  code : Nat
  pid : Nat
deriving Repr, DecidableEq

/-- How a promise was settled. -/
inductive Settle where
  /-- `resolve(buffToDataView(res.payload))`: the data view is determined by
  the payload buffer it wraps. -/
  | resolved (payload : Buffer)
  /-- `reject(err)` with the message of the `Error`. -/
  | rejected (err : String)
deriving Repr, DecidableEq

/-- The session state: connection flag, pending callbacks, and the promise
registry (`none` = still pending).  `nextId` supplies fresh promise ids. -/
structure SessionState where
  conencted : Bool
  callbacks : List MultiwiiCommandCallback
  promises : List (Nat × Option Settle)
  nextId : Nat
deriving Repr, DecidableEq

/-- The session right after the `open` event fired (`onOpen` sets
`conencted = true`; no request has been issued yet). -/
def connectedSession : SessionState :=
  { conencted := true, callbacks := [], promises := [], nextId := 0 }

/-- Settle a promise, first settlement wins (a second `resolve`/`reject` on a
settled JavaScript promise has no effect). -/
def settlePromise (ps : List (Nat × Option Settle)) (pid : Nat) (s : Settle) :
    List (Nat × Option Settle) :=
  ps.map (fun e => if e.1 = pid then (e.1, some (e.2.getD s)) else e)

/-- An event emitted by the session (`this.emit(...)` in `onData`). -/
inductive SessionEvent where
  | message (msg : MSPMsg)
  | error (err : String)
deriving Repr, DecidableEq

/-- The callback loop of `onData`: iterate over `this.callbacks` from the
last index down to 0 and splice out every entry whose `code` equals
`res.code` (`undefined` matches nothing).  Returns the remaining entries and
the matched entries in the order they were settled (last entry first). -/
def processCallbacks (cbs : List MultiwiiCommandCallback) (rescode : Option Nat) :
    List MultiwiiCommandCallback × List MultiwiiCommandCallback :=
  match cbs with
  | [] => ([], [])
  | cb :: rest =>
    let (keep, matched) := processCallbacks rest rescode
    if some cb.code = rescode then (keep, matched ++ [cb])
    else (cb :: keep, matched)

/-- The outcome of one `onData(buff)` invocation.  `threw = true` means an
exception escaped the handler (thrown by `decodeMessage` or `parseMsg`); in
that case nothing after the throwing call ran. -/
structure OnDataResult where
  state : SessionState
  events : List SessionEvent
  threw : Bool
deriving Repr, DecidableEq

/-- `onData(buff)` from `src/index.ts`.

Event phase: a framing failure emits `error`; a framing success runs
`parseMsg` and emits `message` on success.  `parseMsg` never returns a falsy
value — it either returns a message object or throws — so the
`emit(new Error(Unsupported message code ...))` branch of the source is
unreachable, and an unregistered code instead makes the exception escape the
handler before the callback loop runs.

Callback phase: every pending entry whose code equals `res.code` is spliced
out; its promise is resolved with a view of the payload on framing success,
or rejected with the framing error otherwise. -/
def onData (s : SessionState) (buff : Buffer) : OnDataResult :=
  match decodeMessage buff with
  | .error _ => { state := s, events := [], threw := true }
  | .ok res =>
    let step : Except String (List SessionEvent × Option Nat × Settle) :=
      match res with
      | .failure code err => .ok ([.error err], code, .rejected err)
      | .success code _ payload _ =>
        match code with
        | some c =>
          match parseMsg c payload with
          | .ok msg => .ok ([.message msg], some c, .resolved payload)
          | .error e => .error e
        | none => .error "Unknown MSP code: undefined"
    match step with
    | .error _ => { state := s, events := [], threw := true }
    | .ok (events, rescode, settle) =>
      let (keep, matched) := processCallbacks s.callbacks rescode
      let promises := matched.foldl (fun ps cb => settlePromise ps cb.pid settle) s.promises
      { state := { s with callbacks := keep, promises := promises },
        events := events, threw := false }

/-- The result of a successful `sendMessage`: the new session state and the
frame written to the port. -/
structure SendResult where
  state : SessionState
  transmitted : Buffer
deriving Repr, DecidableEq

/-- `sendMessage(code, payload)` from `src/index.ts`: throw `Not connected`
when disconnected; otherwise encode and write the frame and push a pending
entry whose timer, on expiry, rejects with the timeout error. -/
def sendMessage (s : SessionState) (code : Nat) (payload : Buffer) :
    Except String SendResult :=
  if !s.conencted then .error "Not connected"
  else
    let bufferOut := encodeMessage code payload
    let pid := s.nextId
    .ok { state := { s with
            callbacks := s.callbacks ++ [{ code := code, pid := pid }],
            promises := s.promises ++ [(pid, none)],
            nextId := pid + 1 },
          transmitted := bufferOut }

/-- The timeout error message built by the `setTimeout` handler. -/
def timeoutMsg (code : Nat) : String := "Command timeout, code: " ++ toString code

/-- The `setTimeout` handler registered by `sendMessage` for entry `cb`,
fired at the deadline: it only calls `reject(new Error(Command timeout ...))`
— it does **not** remove the entry from `this.callbacks`. -/
def onTimeout (s : SessionState) (cb : MultiwiiCommandCallback) : SessionState :=
  { s with promises := settlePromise s.promises cb.pid (.rejected (timeoutMsg cb.code)) }

/-- The payload built by `setMotor(motor)` in `src/index.ts`: the loop body
pushes `motor[1]` — not `motor[i]` — on every iteration.  When the array has
fewer than two entries `motor[1]` is `undefined`, which the bitwise
operations inside `push16` coerce to 0; `List.getD 1 0` mirrors that. -/
def setMotorPayload (motor : List Nat) : Buffer :=
  bufferFrom ((List.range motor.length).foldl
    (fun buffer _ => push16 buffer (motor.getD 1 0)) [])

/-- `setMotor(motor)`: send the payload under `MSP_SET_MOTOR`. -/
def setMotor (s : SessionState) (motor : List Nat) : Except String SendResult :=
  sendMessage s MSPCodes.MSP_SET_MOTOR (setMotorPayload motor)

/-- `getApiVersion()` applies `parseApiVersion` to the data view the resolved
promise of `sendMessage(MSP_API_VERSION)` carries. -/
def getApiVersionResult (resolvedPayload : Buffer) : Except String MSPApiVersion :=
  parseApiVersion.run resolvedPayload

/-! ## Helper lemmas -/

/-- A buffer of genuine bytes is unchanged by byte truncation. -/
theorem map_mod256_eq_self (l : Buffer) (h : ∀ b ∈ l, b < 256) :
    l.map (fun b => b % 256) = l := by
  induction l with
  | nil => rfl
  | cons a t ih =>
    have ha : a < 256 := h a (by simp)
    simp [Nat.mod_eq_of_lt ha, ih (fun b hb => h b (by simp [hb]))]

/-- The XOR fold of bytes stays below 256. -/
theorem foldl_xor_lt_256 (l : Buffer) (acc : Nat) (hacc : acc < 256)
    (h : ∀ b ∈ l, b < 256) : l.foldl (fun c b => c ^^^ b) acc < 256 := by
  induction l generalizing acc with
  | nil => simpa using hacc
  | cons a t ih =>
    have ha : a < 256 := h a (by simp)
    have : acc ^^^ a < 256 := by
      have := Nat.xor_lt_two_pow (n := 8) (by simpa using hacc) (by simpa using ha)
      simpa using this
    exact ih (acc ^^^ a) this (fun b hb => h b (by simp [hb]))

/-- The indexed CRC loop equals the fold over the corresponding slice. -/
theorem crcFold_range (L : Buffer) :
    ∀ (n s acc : Nat), s + n ≤ L.length →
      (List.range' s n).foldl (fun crc ii => crc8DvbS2 crc (L.getD ii 0)) acc
        = ((L.drop s).take n).foldl crc8DvbS2 acc := by
  intro n
  induction n with
  | zero => simp
  | succ n ih =>
    intro s acc h
    have hs : s < L.length := by omega
    rw [List.range'_succ, List.drop_eq_getElem_cons hs]
    simp only [List.foldl_cons, List.take_succ_cons]
    rw [ih (s + 1) _ (by omega)]
    congr 1
    simp [List.getD_eq_getElem?_getD, List.getElem?_eq_getElem hs]

/-- `crc8DvbS2Data` over an in-range window is `crc8OverList` of the slice. -/
theorem crc8DvbS2Data_eq_over (L : Buffer) (s n : Nat) (h : s + n ≤ L.length) :
    crc8DvbS2Data L s (s + n) = crc8OverList ((L.drop s).take n) := by
  unfold crc8DvbS2Data crc8OverList
  rw [show s + n - s = n by omega]
  exact crcFold_range L n s 0 h

/-- One CRC inner-loop step always yields a byte. -/
theorem crc8DvbS2Bit_lt_256 (x : Nat) : crc8DvbS2Bit x < 256 := by
  unfold crc8DvbS2Bit
  split
  · have h1 : (x <<< 1) &&& 0xff < 256 := by
      have := Nat.and_le_right (n := x <<< 1) (m := 0xff)
      omega
    have := Nat.xor_lt_two_pow (n := 8) (by simpa using h1)
      (by norm_num : (0xd5 : Nat) < 2 ^ 8)
    simpa using this
  · have := Nat.and_le_right (n := x <<< 1) (m := 0xff)
    omega

/-- The CRC of a byte against any register is a byte. -/
theorem crc8DvbS2_lt_256 (crc ch : Nat) : crc8DvbS2 crc ch < 256 := by
  unfold crc8DvbS2
  rw [show (8 : Nat) = 7 + 1 from rfl, Function.iterate_succ_apply']
  exact crc8DvbS2Bit_lt_256 _

/-- Any fold of `crc8DvbS2` steps from a byte stays a byte. -/
theorem foldl_crc8_lt_256 {α : Type} (f : α → Nat) (l : List α) (acc : Nat)
    (hacc : acc < 256) :
    l.foldl (fun crc x => crc8DvbS2 crc (f x)) acc < 256 := by
  induction l generalizing acc with
  | nil => simpa using hacc
  | cons b t ih => exact ih _ (crc8DvbS2_lt_256 _ _)

theorem crc8OverList_lt_256 (bs : List Nat) : crc8OverList bs < 256 :=
  foldl_crc8_lt_256 (fun b => b) bs 0 (by norm_num)

/-- Inversion of a successful bind: the first computation succeeded and the
continuation succeeded from its offset. -/
theorem readM_bind_eq_ok {α β : Type} {m : ReadM α} {f : α → ReadM β} {buff : Buffer}
    {off : Nat} {r : β × Nat} :
    (m >>= f) buff off = .ok r ↔
      ∃ a off1, m buff off = .ok (a, off1) ∧ f a buff off1 = .ok r := by
  show ReadM.bind m f buff off = .ok r ↔ _
  unfold ReadM.bind
  cases h : m buff off with
  | error e => simp
  | ok p =>
    obtain ⟨a, off1⟩ := p
    constructor
    · intro hf
      exact ⟨a, off1, rfl, hf⟩
    · rintro ⟨a1, o1, heq, hf⟩
      injection heq with h12
      injection h12 with ha ho
      subst ha
      subst ho
      exact hf

theorem readM_pure_eq_ok {α : Type} {a : α} {buff : Buffer} {off : Nat} {r : α × Nat} :
    (Pure.pure a : ReadM α) buff off = .ok r ↔ r = (a, off) := by
  show Except.ok (a, off) = .ok r ↔ r = (a, off)
  constructor
  · intro h
    exact (Except.ok.inj h).symm
  · intro h
    rw [h]

theorem readU8_ok {buff : Buffer} {off : Nat} (h : off + 1 ≤ buff.length) :
    readU8 buff off = .ok (buff.getD off 0, off + 1) := by
  unfold readU8 readUInt8
  rw [if_pos h]

theorem readU16_ok {buff : Buffer} {off : Nat} (h : off + 2 ≤ buff.length) :
    readU16 buff off = .ok (buff.getD off 0 + 256 * buff.getD (off + 1) 0, off + 2) := by
  unfold readU16 readUInt16LE
  rw [if_pos h]

theorem readU32_ok {buff : Buffer} {off : Nat} (h : off + 4 ≤ buff.length) :
    readU32 buff off = .ok (buff.getD off 0 + 256 * buff.getD (off + 1) 0 +
      65536 * buff.getD (off + 2) 0 + 16777216 * buff.getD (off + 3) 0, off + 4) := by
  unfold readU32 readUInt32LE
  rw [if_pos h]

/-- Appending a fixed list once per loop iteration yields the joined
replicate. -/
theorem foldl_append_const {α : Type} (X : List α) :
    ∀ (n : Nat) (acc : List α),
      (List.range n).foldl (fun b _ => b ++ X) acc = acc ++ (List.replicate n X).flatten := by
  intro n
  induction n with
  | zero => simp
  | succ n ih =>
    intro acc
    rw [List.range_succ, List.foldl_append]
    simp [ih, List.replicate_succ' (n := n)]

/-! ## Claims -/

/-- C2: the encoder and checksum engine reproduce the known vectors:
CRC8/DVB-S2 over an empty range is 0; `encodeMessageV2(0x0100, [])` is
`[36,88,60,0,0,1,0,0,0x83]` (checksum byte 0x83); `encodeMessageV2(0x0200,
[1,2,3])` is `[36,88,60,0,0,2,3,0,1,2,3,0xD5]` (checksum byte 0xD5);
`encodeMessageV1(1, [])` is `[36,77,60,0,1,1]`; and `encodeMessageV1(2,
[1,2,3])` is `[36,77,60,3,2,1,2,3,1]`. -/
theorem known_vectors :
    crc8OverList [] = 0 ∧
    crc8DvbS2Data [] 0 0 = 0 ∧
    encodeMessageV2 0x0100 [] = [36, 88, 60, 0, 0, 1, 0, 0, 0x83] ∧
    (encodeMessageV2 0x0100 []).getLast? = some 0x83 ∧
    encodeMessageV2 0x0200 [1, 2, 3] = [36, 88, 60, 0, 0, 2, 3, 0, 1, 2, 3, 0xd5] ∧
    (encodeMessageV2 0x0200 [1, 2, 3]).getLast? = some 0xd5 ∧
    encodeMessageV1 1 [] = [36, 77, 60, 0, 1, 1] ∧
    encodeMessageV1 2 [1, 2, 3] = [36, 77, 60, 3, 2, 1, 2, 3, 1] := by
  decide

/-- C5 (the code contradicts the claim): a frame that decodes successfully
at the framing layer but whose code has no case in `parseMsg` is NOT handled
recoverably.  `parseMsg` throws `Unknown MSP code: 0` instead of returning a
falsy value, so the `emit(error, Unsupported message code)` branch of
`onData` is unreachable: on the valid V1 frame `[36,77,60,0,0,0]` (code 0,
no registered schema) the exception escapes the handler (`threw = true`), no
session-level `error` notification is emitted (`events = []`), and the
pending request for code 0 is not rejected (the state is untouched). -/
theorem unknownCode_exception_escapes :
    parseMsg 0 [] = .error "Unknown MSP code: 0" ∧
    sendMessage connectedSession 0 [] =
      .ok { state := { conencted := true, callbacks := [{ code := 0, pid := 0 }],
                       promises := [(0, none)], nextId := 1 },
            transmitted := [36, 77, 60, 0, 0, 0] } ∧
    onData { conencted := true, callbacks := [{ code := 0, pid := 0 }],
             promises := [(0, none)], nextId := 1 } [36, 77, 60, 0, 0, 0] =
      { state := { conencted := true, callbacks := [{ code := 0, pid := 0 }],
                   promises := [(0, none)], nextId := 1 },
        events := [], threw := true } := by
  decide

/-- C6 counterexample: the claim quantifies over every buffer whose byte at
index 2 is 33, but on `[36,88,33,0,0]` (marker 33, V2 path, too short for
the 16-bit code read at offset 4, which happens before the marker check)
`decodeMessage` throws a range error instead of returning an
unsupported-code failure carrying the code. -/
theorem unsupported_short_buffer_throws :
    decodeMessage [36, 88, 33, 0, 0] = .error rangeError := by
  decide

/-- C6 (amended): on the V1 path (second byte 77) the claim holds for EVERY
buffer with marker byte 33: the code read `buff[4]` is a plain index access
that never throws, so `decodeMessage` returns the unsupported-code failure
carrying the byte at offset 4 (`undefined` when the buffer is shorter than
5 bytes).  On the V2 path (second byte not 77) the claim must be restricted
to buffers of length at least 6: the 16-bit little-endian code read at
offset 4 precedes the marker check, so only then does `decodeMessage` return
the unsupported-code failure carrying that code — shorter V2-path buffers
throw instead (the counterexample). -/
theorem unsupported_marker (buff : Buffer) (hm : buff[2]? = some 33) :
    (buff[1]? = some 77 →
      decodeMessage buff = .ok (.failure buff[4]? (unsupportedMsg buff[4]?))) ∧
    (buff[1]? ≠ some 77 → 6 ≤ buff.length →
      decodeMessage buff =
        .ok (.failure (some (buff.getD 4 0 + 256 * buff.getD 5 0))
          (unsupportedMsg (some (buff.getD 4 0 + 256 * buff.getD 5 0))))) := by
  constructor
  · intro h1
    simp only [decodeMessage, h1, if_pos rfl]
    rw [decodeMessageV1]
    simp only [hm]
    simp
  · intro h1 hlen
    simp only [decodeMessage, if_neg h1]
    rw [decodeMessageV2]
    simp [readUInt16LE, hm, show 4 + 2 ≤ buff.length by omega]

/-- Witness for C6: the amended statement applied to the five-byte V1 frame
`[36,77,33,0,7]` (code `some 7`), to the three-byte V1 frame `[36,77,33]`
(code read past the end, `undefined`, still an unsupported failure — no
throw), and to the garbage V2-path buffer `[0,0,33,0,7,1]` (code 263). -/
theorem unsupported_marker_witness :
    decodeMessage [36, 77, 33, 0, 7] =
      .ok (.failure (some 7) (unsupportedMsg (some 7))) ∧
    decodeMessage [36, 77, 33] =
      .ok (.failure none (unsupportedMsg none)) ∧
    decodeMessage [0, 0, 33, 0, 7, 1] =
      .ok (.failure (some 263) (unsupportedMsg (some 263))) :=
  ⟨by simpa using (unsupported_marker [36, 77, 33, 0, 7] (by decide)).1 (by decide),
   by simpa using (unsupported_marker [36, 77, 33] (by decide)).1 (by decide),
   by simpa using (unsupported_marker [0, 0, 33, 0, 7, 1] (by decide)).2 (by decide) (by decide)⟩

/-- C10: `decodeMessage` treats every buffer whose second byte is not 77
(`M`) as a V2 frame — even when that byte is also not 88 (`X`); the only
failure result it can ever return is the unsupported-marker failure (it has
no malformed-preamble error at all); and on the V2 path the code is read as
a 16-bit little-endian value at offset 4, so sufficiently long garbage with
a non-`M` second byte decodes as a V2 frame. -/
theorem decodeMessage_v2_dispatch (buff : Buffer) :
    (buff[1]? ≠ some 77 → decodeMessage buff = decodeMessageV2 buff) ∧
    (∀ co e, decodeMessage buff = .ok (.failure co e) →
      buff[2]? = some 33 ∧ e = unsupportedMsg co) ∧
    (buff[1]? ≠ some 77 → buff[2]? ≠ some 33 → 8 ≤ buff.length →
      decodeMessage buff = .ok (.success
        (some (buff.getD 4 0 + 256 * buff.getD 5 0))
        (some (buff.getD 6 0 + 256 * buff.getD 7 0))
        (if buff.getD 6 0 + 256 * buff.getD 7 0 ≠ 0 then
          jsSlice buff 8 (8 + (buff.getD 6 0 + 256 * buff.getD 7 0)) else [])
        buff[buff.length - 1]?)) := by
  refine ⟨fun h1 => by rw [decodeMessage, if_neg h1], ?_, ?_⟩
  · intro co e h
    by_cases h1 : buff[1]? = some 77
    · rw [decodeMessage, if_pos h1, decodeMessageV1] at h
      by_cases hm : buff[2]? = some 33
      · rw [if_pos hm] at h
        obtain ⟨h2, h3⟩ := by simpa using h
        exact ⟨hm, by rw [← h2, ← h3]⟩
      · rw [if_neg hm] at h
        cases h3 : buff[3]? <;> simp [h3] at h
    · rw [decodeMessage, if_neg h1, decodeMessageV2] at h
      cases hr : readUInt16LE buff 4 with
      | error err => simp [hr] at h
      | ok code =>
        simp only [hr] at h
        by_cases hm : buff[2]? = some 33
        · rw [if_pos hm] at h
          obtain ⟨h2, h3⟩ := by simpa using h
          exact ⟨hm, by rw [← h2, ← h3]⟩
        · rw [if_neg hm] at h
          cases hr2 : readUInt16LE buff 6 <;> simp [hr2] at h
  · intro h1 hm hlen
    rw [decodeMessage, if_neg h1, decodeMessageV2]
    simp [readUInt16LE, hm, show 4 + 2 ≤ buff.length by omega,
      show 6 + 2 ≤ buff.length by omega]

/-- Witness for C10: the garbage buffer `[0,1,2,3,4,5,6,7]` (second byte 1,
neither `M` nor `X`) is decoded under the V2 layout with code
`4 + 256 * 5 = 1284`. -/
theorem decodeMessage_v2_dispatch_witness :
    decodeMessage [0, 1, 2, 3, 4, 5, 6, 7] =
      .ok (.success (some 1284) (some 1798) [] (some 7)) := by
  have h := (decodeMessage_v2_dispatch [0, 1, 2, 3, 4, 5, 6, 7]).2.2
    (by decide) (by decide) (by decide)
  simpa using h

/-- C9: for every motor array, the `MSP_SET_MOTOR` payload built by
`setMotor` consists of `motor.length` copies of the 16-bit little-endian
encoding of `motor[1]` (the second element; 0 when the array is shorter than
two entries, since `undefined` coerces to 0 in the bit operations of
`push16`) — the respective `motor[i]` values, including the first motor, are
never encoded.  The transmitted frame wraps exactly that payload under code
`MSP_SET_MOTOR`. -/
theorem setMotor_encodes_second_entry (motor : List Nat)
    (hv : ∀ v ∈ motor, v < 65536) :
    setMotorPayload motor =
      (List.replicate motor.length [motor.getD 1 0 % 256, motor.getD 1 0 / 256]).flatten ∧
    setMotor connectedSession motor =
      .ok { state := { conencted := true,
                       callbacks := [{ code := MSPCodes.MSP_SET_MOTOR, pid := 0 }],
                       promises := [(0, none)], nextId := 1 },
            transmitted := encodeMessage MSPCodes.MSP_SET_MOTOR
              ((List.replicate motor.length
                 [motor.getD 1 0 % 256, motor.getD 1 0 / 256]).flatten) } := by
  have hd : motor.getD 1 0 < 65536 := by
    by_cases h : 1 < motor.length
    · rw [List.getD_eq_getElem _ _ h]
      exact hv _ (List.getElem_mem h)
    · rw [List.getD_eq_default _ _ (by omega)]
      omega
  have hmask : 0xff &&& motor.getD 1 0 = motor.getD 1 0 % 256 := by
    rw [Nat.and_comm]
    have h255 : (0xff : Nat) = 2 ^ 8 - 1 := by norm_num
    rw [h255, Nat.and_pow_two_sub_one_eq_mod]
  have hshift : motor.getD 1 0 >>> 8 = motor.getD 1 0 / 256 := by
    rw [Nat.shiftRight_eq_div_pow]
  have hdivlt : motor.getD 1 0 / 256 < 256 := by omega
  have hpay : setMotorPayload motor =
      (List.replicate motor.length
        [motor.getD 1 0 % 256, motor.getD 1 0 / 256]).flatten := by
    unfold setMotorPayload push16 bufferFrom
    rw [foldl_append_const]
    simp only [List.nil_append, List.map_flatten, List.map_replicate, List.map_cons,
      List.map_nil]
    congr 2
    rw [hmask, hshift, Nat.mod_eq_of_lt (Nat.mod_lt _ (by norm_num)),
      Nat.mod_eq_of_lt hdivlt]
  refine ⟨hpay, ?_⟩
  simp [setMotor, sendMessage, connectedSession, hpay]

/-- Witness for C9: `setMotor([1000, 1500, 2000])` sends three copies of the
little-endian encoding of 1500 (`motor[1]`) — `1000` and `2000` never appear. -/
theorem setMotor_encodes_second_entry_witness :
    setMotorPayload [1000, 1500, 2000] = [220, 5, 220, 5, 220, 5] := by
  have h := (setMotor_encodes_second_entry [1000, 1500, 2000] (by decide)).1
  simpa using h

/-- C3: on a connected session, after `sendMessage(c, payload)` registers a
pending request, the first inbound frame that decodes to code `c` (and whose
code has a registered schema, so `parseMsg` returns rather than throws)
resolves that request with the decoded frame payload (wrapped in a data
view) and removes its entry from the pending-callback list; a second
identical inbound frame arriving after resolution settles nothing — the
state is unchanged — and is delivered only as an unsolicited `message`
notification. -/
theorem request_correlation (c : Nat) (payload buff p : Buffer)
    (len ck : Option Nat) (m : MSPMsg) (sr : SendResult)
    (hsend : sendMessage connectedSession c payload = .ok sr)
    (hdec : decodeMessage buff = .ok (.success (some c) len p ck))
    (hmsg : parseMsg c p = .ok m) :
    onData sr.state buff =
      { state := { conencted := true, callbacks := [],
                   promises := [(0, some (.resolved p))], nextId := 1 },
        events := [.message m], threw := false } ∧
    onData (onData sr.state buff).state buff =
      { state := { conencted := true, callbacks := [],
                   promises := [(0, some (.resolved p))], nextId := 1 },
        events := [.message m], threw := false } := by
  have hsr : sr = { state := { conencted := true, callbacks := [{ code := c, pid := 0 }],
                               promises := [(0, none)], nextId := 1 },
                    transmitted := encodeMessage c payload } := by
    simp [sendMessage, connectedSession] at hsend
    exact hsend.symm
  subst hsr
  have h1 : onData { conencted := true, callbacks := [{ code := c, pid := 0 }],
                     promises := [(0, none)], nextId := 1 } buff =
      { state := { conencted := true, callbacks := [],
                   promises := [(0, some (.resolved p))], nextId := 1 },
        events := [.message m], threw := false } := by
    simp [onData, hdec, hmsg, processCallbacks, settlePromise]
  refine ⟨h1, ?_⟩
  rw [show (onData { conencted := true, callbacks := [{ code := c, pid := 0 }],
                     promises := [(0, none)], nextId := 1 } buff).state =
        { conencted := true, callbacks := [],
          promises := [(0, some (.resolved p))], nextId := 1 } by rw [h1]]
  simp [onData, hdec, hmsg, processCallbacks]

/-- Witness for C3: a request for `MSP_API_VERSION` (code 1) and the
checksum-valid frame `[36,77,60,3,1,2,1,45,44]`. -/
theorem request_correlation_witness :
    onData { conencted := true, callbacks := [{ code := 1, pid := 0 }],
             promises := [(0, none)], nextId := 1 } [36, 77, 60, 3, 1, 2, 1, 45, 44] =
      { state := { conencted := true, callbacks := [],
                   promises := [(0, some (.resolved [2, 1, 45]))], nextId := 1 },
        events := [.message (.apiVersion { mspProtocolVersion := 2, apiVersion := "1.45.0" })],
        threw := false } := by
  have h := request_correlation 1 [] [36, 77, 60, 3, 1, 2, 1, 45, 44] [2, 1, 45]
      (some 3) (some 44) (.apiVersion { mspProtocolVersion := 2, apiVersion := "1.45.0" })
      { state := { conencted := true, callbacks := [{ code := 1, pid := 0 }],
                   promises := [(0, none)], nextId := 1 },
        transmitted := [36, 77, 60, 0, 1, 1] }
      (by decide) (by decide) (by decide)
  simpa using h.1

/-- C4 counterexample: the timeout handler only rejects — it does not splice
the entry out of `this.callbacks`.  After the timer of the single pending
request (code 1) fires, the entry is still in the pending list, refuting
"the pending entry is removed from the pending set"; and a frame with code 1
arriving after the timeout still matches that stale entry, refuting
"matching no pending entry". -/
theorem timeout_entry_not_removed :
    (onTimeout { conencted := true, callbacks := [{ code := 1, pid := 0 }],
                 promises := [(0, none)], nextId := 1 } { code := 1, pid := 0 }).callbacks =
      [{ code := 1, pid := 0 }] ∧
    processCallbacks [{ code := 1, pid := 0 }] (some 1) =
      ([], [{ code := 1, pid := 0 }]) := by
  decide

/-- C4 (amended): when the pending request created by `sendMessage(c, ...)`
sees no frame with code `c` before the deadline, the timer fires and the
outcome is rejected with the timeout error carrying `c` — but the entry
remains in the pending list.  A frame with code `c` arriving after the
timeout still matches the stale entry and removes it then; its `resolve`
call cannot change the already-settled outcome (a JavaScript promise settles
once), so observably the late frame only yields the unsolicited `message`
notification. -/
theorem timeout_behavior (c : Nat) (payload buff p : Buffer)
    (len ck : Option Nat) (m : MSPMsg) (sr : SendResult)
    (hsend : sendMessage connectedSession c payload = .ok sr)
    (hdec : decodeMessage buff = .ok (.success (some c) len p ck))
    (hmsg : parseMsg c p = .ok m) :
    (onTimeout sr.state { code := c, pid := 0 }).promises =
      [(0, some (.rejected (timeoutMsg c)))] ∧
    (onTimeout sr.state { code := c, pid := 0 }).callbacks = [{ code := c, pid := 0 }] ∧
    onData (onTimeout sr.state { code := c, pid := 0 }) buff =
      { state := { conencted := true, callbacks := [],
                   promises := [(0, some (.rejected (timeoutMsg c)))], nextId := 1 },
        events := [.message m], threw := false } := by
  have hsr : sr = { state := { conencted := true, callbacks := [{ code := c, pid := 0 }],
                               promises := [(0, none)], nextId := 1 },
                    transmitted := encodeMessage c payload } := by
    simp [sendMessage, connectedSession] at hsend
    exact hsend.symm
  subst hsr
  refine ⟨by simp [onTimeout, settlePromise], by simp [onTimeout], ?_⟩
  simp [onTimeout, settlePromise, onData, hdec, hmsg, processCallbacks]

/-- Witness for C4: code 1 with the frame `[36,77,60,3,1,2,1,45,44]`
arriving after the timeout. -/
theorem timeout_behavior_witness :
    onData (onTimeout { conencted := true, callbacks := [{ code := 1, pid := 0 }],
                        promises := [(0, none)], nextId := 1 } { code := 1, pid := 0 })
        [36, 77, 60, 3, 1, 2, 1, 45, 44] =
      { state := { conencted := true, callbacks := [],
                   promises := [(0, some (.rejected (timeoutMsg 1)))], nextId := 1 },
        events := [.message (.apiVersion { mspProtocolVersion := 2, apiVersion := "1.45.0" })],
        threw := false } := by
  have h := timeout_behavior 1 [] [36, 77, 60, 3, 1, 2, 1, 45, 44] [2, 1, 45]
      (some 3) (some 44) (.apiVersion { mspProtocolVersion := 2, apiVersion := "1.45.0" })
      { state := { conencted := true, callbacks := [{ code := 1, pid := 0 }],
                   promises := [(0, none)], nextId := 1 },
        transmitted := [36, 77, 60, 0, 1, 1] }
      (by decide) (by decide) (by decide)
  simpa using h.2.2

/-- C8 counterexample: with the inbound chunk exactly as the claim gives it
— length byte 2 at offset 3 — the frame payload is `[2, 1]` (the byte 45 at
offset 7 is taken as the checksum and the trailing ninth byte is never
read).  `parseApiVersion` performs three one-byte reads, so `parseMsg`
throws a range error on the two-byte payload; the exception escapes `onData`
before the callback loop and the pending request for code 1 is NOT resolved
(it stays pending), contradicting the claimed resolution to
`{mspProtocolVersion: 2, apiVersion: 1.45.0}`. -/
theorem api_version_vector_unresolved :
    decodeMessage [36, 77, 60, 2, 1, 2, 1, 45, 99] =
      .ok (.success (some 1) (some 2) [2, 1] (some 45)) ∧
    parseMsg 1 [2, 1] = .error rangeError ∧
    onData { conencted := true, callbacks := [{ code := 1, pid := 0 }],
             promises := [(0, none)], nextId := 1 } [36, 77, 60, 2, 1, 2, 1, 45, 99] =
      { state := { conencted := true, callbacks := [{ code := 1, pid := 0 }],
                   promises := [(0, none)], nextId := 1 },
        events := [], threw := true } := by
  decide

/-- C8 (amended): a request for `MSP_API_VERSION` (code 1) followed by the
inbound chunk `[36,77,60,3,1,2,1,45,checksum]` — length byte 3, so the
declared payload `[2,1,45]` covers `parseApiVersion`'s three one-byte reads
— resolves the pending request with the payload view, and `getApiVersion`
decodes it to `{mspProtocolVersion := 2, apiVersion := "1.45.0"}`. -/
theorem api_version_end_to_end (sr : SendResult)
    (hsend : sendMessage connectedSession MSPCodes.MSP_API_VERSION [] = .ok sr) :
    onData sr.state [36, 77, 60, 3, 1, 2, 1, 45, 44] =
      { state := { conencted := true, callbacks := [],
                   promises := [(0, some (.resolved [2, 1, 45]))], nextId := 1 },
        events := [.message (.apiVersion { mspProtocolVersion := 2, apiVersion := "1.45.0" })],
        threw := false } ∧
    getApiVersionResult [2, 1, 45] = .ok { mspProtocolVersion := 2, apiVersion := "1.45.0" } := by
  have hsr : sr = { state := { conencted := true,
                               callbacks := [{ code := MSPCodes.MSP_API_VERSION, pid := 0 }],
                               promises := [(0, none)], nextId := 1 },
                    transmitted := encodeMessage MSPCodes.MSP_API_VERSION [] } := by
    simp [sendMessage, connectedSession] at hsend
    exact hsend.symm
  subst hsr
  constructor
  · decide
  · decide

/-- Witness for C8 (amended): the concrete `sendMessage` result. -/
theorem api_version_end_to_end_witness :
    getApiVersionResult [2, 1, 45] = .ok { mspProtocolVersion := 2, apiVersion := "1.45.0" } :=
  (api_version_end_to_end
    { state := { conencted := true,
                 callbacks := [{ code := MSPCodes.MSP_API_VERSION, pid := 0 }],
                 promises := [(0, none)], nextId := 1 },
      transmitted := encodeMessage MSPCodes.MSP_API_VERSION [] }
    (by decide)).2

/-- V1 round-trip: the frame built by `encodeMessageV1` decodes back to the
code, the payload and the XOR checksum. -/
theorem decodeMessage_encodeMessageV1 (code : Nat) (payload : Buffer)
    (hcode : code ≤ 254)
    (hbytes : ∀ b ∈ payload, b < 256)
    (hlen : payload.length ≤ 255) :
    decodeMessage (encodeMessageV1 code payload) =
      .ok (.success (some code) (some payload.length) payload
        (some (payload.foldl (fun c b => c ^^^ b) (payload.length ^^^ code)))) := by
  have hc : code % 256 = code := Nat.mod_eq_of_lt (by omega)
  have hl : payload.length % 256 = payload.length := Nat.mod_eq_of_lt (by omega)
  have hmap : payload.map (fun b => b % 256) = payload := map_mod256_eq_self payload hbytes
  have hacc : payload.length ^^^ code < 256 := by
    have := Nat.xor_lt_two_pow (n := 8) (x := payload.length) (y := code)
      (by omega) (by omega)
    simpa using this
  have hck : payload.foldl (fun c b => c ^^^ b) (payload.length ^^^ code) < 256 :=
    foldl_xor_lt_256 payload _ hacc hbytes
  have henc : encodeMessageV1 code payload =
      [36, 77, 60, payload.length, code] ++ payload ++
        [payload.foldl (fun c b => c ^^^ b) (payload.length ^^^ code)] := by
    simp only [encodeMessageV1]
    rw [hmap, hc, hl, Nat.mod_eq_of_lt hck]
  have hslice : jsSlice ([36, 77, 60, payload.length, code] ++ payload ++
      [payload.foldl (fun c b => c ^^^ b) (payload.length ^^^ code)]) 5
      (5 + payload.length) = payload := by
    unfold jsSlice
    rw [List.append_assoc, show 5 + payload.length - 5 = payload.length by omega]
    rw [show ([36, 77, 60, payload.length, code] ++
      (payload ++ [payload.foldl (fun c b => c ^^^ b) (payload.length ^^^ code)])).drop 5 =
      payload ++ [payload.foldl (fun c b => c ^^^ b) (payload.length ^^^ code)] from rfl]
    exact List.take_left _ _
  have hcksum : ([36, 77, 60, payload.length, code] ++ payload ++
      [payload.foldl (fun c b => c ^^^ b) (payload.length ^^^ code)])[5 + payload.length]? =
      some (payload.foldl (fun c b => c ^^^ b) (payload.length ^^^ code)) := by
    rw [List.append_assoc, List.getElem?_append_right (by simp)]
    simp [List.getElem?_concat_length]
  rw [henc]
  simp [decodeMessage, decodeMessageV1]
  exact ⟨hslice, hcksum⟩

/-- V2 round-trip: the frame built by `encodeMessageV2` decodes back to the
code, the payload and the CRC8/DVB-S2 checksum over flag, code bytes, length
bytes and payload. -/
theorem decodeMessage_encodeMessageV2 (code : Nat) (payload : Buffer)
    (hcode : code ≤ 65535)
    (hbytes : ∀ b ∈ payload, b < 256)
    (hlen : payload.length ≤ 65535) :
    decodeMessage (encodeMessageV2 code payload) =
      .ok (.success (some code) (some payload.length) payload
        (some (crc8OverList ([0, code % 256, code >>> 8, payload.length % 256,
          payload.length >>> 8] ++ payload)))) := by
  have hshc : code >>> 8 = code / 256 := by rw [Nat.shiftRight_eq_div_pow]
  have hshl : payload.length >>> 8 = payload.length / 256 := by
    rw [Nat.shiftRight_eq_div_pow]
  have hshcm : (code >>> 8) % 256 = code >>> 8 := by
    rw [hshc]; exact Nat.mod_eq_of_lt (by omega)
  have hshlm : (payload.length >>> 8) % 256 = payload.length >>> 8 := by
    rw [hshl]; exact Nat.mod_eq_of_lt (by omega)
  have hmap : payload.map (fun b => b % 256) = payload := map_mod256_eq_self payload hbytes
  have hcrc : crc8DvbS2Data
      ([36, 88, 60, 0, code % 256, code >>> 8, payload.length % 256,
        payload.length >>> 8] ++ payload ++ [0]) 3 (payload.length + 9 - 1) =
      crc8OverList ([0, code % 256, code >>> 8, payload.length % 256,
        payload.length >>> 8] ++ payload) := by
    rw [show payload.length + 9 - 1 = 3 + (payload.length + 5) by omega]
    rw [crc8DvbS2Data_eq_over _ _ _
      (by simp only [List.length_append, List.length_cons, List.length_nil]; omega)]
    congr 1
    have hdrop : ([36, 88, 60, 0, code % 256, code >>> 8, payload.length % 256,
        payload.length >>> 8] ++ payload ++ [0]).drop 3 =
        ([0, code % 256, code >>> 8, payload.length % 256,
          payload.length >>> 8] ++ payload) ++ [0] := rfl
    rw [hdrop]
    rw [show payload.length + 5 = ([0, code % 256, code >>> 8, payload.length % 256,
        payload.length >>> 8] ++ payload).length by
      simp only [List.length_append, List.length_cons, List.length_nil]; omega]
    exact List.take_left _ _
  have hcrclt := crc8OverList_lt_256 ([0, code % 256, code >>> 8, payload.length % 256,
    payload.length >>> 8] ++ payload)
  have henc : encodeMessageV2 code payload =
      [36, 88, 60, 0, code % 256, code >>> 8, payload.length % 256,
       payload.length >>> 8] ++ payload ++
        [crc8OverList ([0, code % 256, code >>> 8, payload.length % 256,
          payload.length >>> 8] ++ payload)] := by
    simp only [encodeMessageV2]
    rw [hmap, hshcm, hshlm, hcrc, Nat.mod_eq_of_lt hcrclt]
  rw [henc]
  have hr4 : readUInt16LE ([36, 88, 60, 0, code % 256, code >>> 8,
      payload.length % 256, payload.length >>> 8] ++ payload ++
      [crc8OverList ([0, code % 256, code >>> 8, payload.length % 256,
        payload.length >>> 8] ++ payload)]) 4 = .ok code := by
    unfold readUInt16LE
    rw [if_pos (by simp)]
    show Except.ok (code % 256 + 256 * (code >>> 8)) = Except.ok code
    rw [hshc, Nat.mod_add_div]
  have hr6 : readUInt16LE ([36, 88, 60, 0, code % 256, code >>> 8,
      payload.length % 256, payload.length >>> 8] ++ payload ++
      [crc8OverList ([0, code % 256, code >>> 8, payload.length % 256,
        payload.length >>> 8] ++ payload)]) 6 = .ok payload.length := by
    unfold readUInt16LE
    rw [if_pos (by simp)]
    show Except.ok (payload.length % 256 + 256 * (payload.length >>> 8)) =
      Except.ok payload.length
    rw [hshl, Nat.mod_add_div]
  have hbranch : (if payload.length ≠ 0 then
      jsSlice ([36, 88, 60, 0, code % 256, code >>> 8, payload.length % 256,
        payload.length >>> 8] ++ payload ++
        [crc8OverList ([0, code % 256, code >>> 8, payload.length % 256,
          payload.length >>> 8] ++ payload)]) 8 (8 + payload.length)
      else []) = payload := by
    by_cases hp : payload.length = 0
    · rw [if_neg (by omega)]
      exact (List.eq_nil_of_length_eq_zero hp).symm
    · rw [if_pos hp]
      unfold jsSlice
      rw [List.append_assoc, show 8 + payload.length - 8 = payload.length by omega]
      rw [show ([36, 88, 60, 0, code % 256, code >>> 8, payload.length % 256,
        payload.length >>> 8] ++ (payload ++ [crc8OverList ([0, code % 256, code >>> 8,
        payload.length % 256, payload.length >>> 8] ++ payload)])).drop 8 =
        payload ++ [crc8OverList ([0, code % 256, code >>> 8, payload.length % 256,
          payload.length >>> 8] ++ payload)] from rfl]
      exact List.take_left _ _
  have hcksum : ([36, 88, 60, 0, code % 256, code >>> 8, payload.length % 256,
      payload.length >>> 8] ++ payload ++
      [crc8OverList ([0, code % 256, code >>> 8, payload.length % 256,
        payload.length >>> 8] ++ payload)])[
      ([36, 88, 60, 0, code % 256, code >>> 8, payload.length % 256,
        payload.length >>> 8] ++ payload ++
        [crc8OverList ([0, code % 256, code >>> 8, payload.length % 256,
          payload.length >>> 8] ++ payload)]).length - 1]? =
      some (crc8OverList ([0, code % 256, code >>> 8, payload.length % 256,
        payload.length >>> 8] ++ payload)) := by
    rw [show ([36, 88, 60, 0, code % 256, code >>> 8, payload.length % 256,
      payload.length >>> 8] ++ payload ++ [crc8OverList ([0, code % 256, code >>> 8,
      payload.length % 256, payload.length >>> 8] ++ payload)]).length - 1 =
      ([36, 88, 60, 0, code % 256, code >>> 8, payload.length % 256,
        payload.length >>> 8] ++ payload).length by
      simp only [List.length_append, List.length_cons, List.length_nil]; omega]
    exact List.getElem?_concat_length _ _
  rw [decodeMessage, if_neg (by simp), decodeMessageV2]
  simp only [hr4, hr6]
  rw [if_neg (by simp)]
  rw [hbranch, hcksum]

/-- C1: for every code up to 65535 and every payload of genuine bytes within
the selected wire format limit (255 bytes for codes up to 254, 65535 bytes
otherwise), `decodeMessage (encodeMessage code payload)` is a success
carrying the original code and payload; the reported checksum is the XOR of
the length byte, the code byte and the payload bytes on the V1 path, and
CRC8/DVB-S2 (polynomial 0xD5, seed 0) over the bytes from the flag byte to
the end of the payload on the V2 path. -/
theorem decode_encode_roundtrip (code : Nat) (payload : Buffer)
    (hcode : code ≤ 65535)
    (hbytes : ∀ b ∈ payload, b < 256)
    (hlen1 : code ≤ 254 → payload.length ≤ 255)
    (hlen2 : 254 < code → payload.length ≤ 65535) :
    decodeMessage (encodeMessage code payload) =
      .ok (.success (some code) (some payload.length) payload
        (some (if code ≤ 254
          then payload.foldl (fun c b => c ^^^ b) (payload.length ^^^ code)
          else crc8OverList ([0, code % 256, code >>> 8, payload.length % 256,
            payload.length >>> 8] ++ payload)))) := by
  by_cases hc : code ≤ 254
  · rw [encodeMessage, if_pos hc, if_pos hc]
    exact decodeMessage_encodeMessageV1 code payload hc hbytes (hlen1 hc)
  · rw [encodeMessage, if_neg hc, if_neg hc]
    exact decodeMessage_encodeMessageV2 code payload hcode hbytes (hlen2 (by omega))

/-- Witness for C1: one V1 instance (code 2, payload `[1,2,3]`, XOR checksum
1) and one V2 instance (code 0x0200, payload `[1,2,3]`, CRC 0xD5), matching
the repository's own test vectors. -/
theorem decode_encode_roundtrip_witness :
    decodeMessage (encodeMessage 2 [1, 2, 3]) =
      .ok (.success (some 2) (some 3) [1, 2, 3] (some 1)) ∧
    decodeMessage (encodeMessage 0x0200 [1, 2, 3]) =
      .ok (.success (some 512) (some 3) [1, 2, 3] (some 0xd5)) := by
  constructor
  · have h := decode_encode_roundtrip 2 [1, 2, 3] (by decide) (by decide)
      (by decide) (by decide)
    simpa using h
  · have h := decode_encode_roundtrip 0x0200 [1, 2, 3] (by decide) (by decide)
      (by decide) (by decide)
    simpa using h

/-- C7: whenever the version-gated board-info decoder succeeds with
ApiVersion unset, the post-1.42 fields are omitted — `configurationState`
and `sampleRateHz` are `none`, `configurationProblems` is the default
`some 0` — and nothing past `mcuTypeId` is read: the shipped ungated decoder
consumes exactly the same bytes (same final offset `off0`).  Decoding the
same payload with ApiVersion `"1.43.0"` additionally reads and includes the
1.42-gated `configurationState` (one byte) and the 1.43-introduced
`sampleRateHz` (16-bit LE) and `configurationProblems` (32-bit LE) from the
next seven payload bytes. -/
theorem boardInfo_version_gating (payload : Buffer) (r0 : MSPBoardInfoV) (off0 : Nat)
    (h : parseBoardInfoV none payload 0 = .ok (r0, off0)) :
    (r0.configurationState = none ∧ r0.sampleRateHz = none ∧
      r0.configurationProblems = some 0) ∧
    parseBoardInfo payload 0 = .ok
      ({ boardIdentifier := r0.boardIdentifier, boardVersion := r0.boardVersion,
         boardType := r0.boardType, targetCapabilities := r0.targetCapabilities,
         targetName := r0.targetName, boardName := r0.boardName,
         manufacturerId := r0.manufacturerId, signature := r0.signature,
         mcuTypeId := r0.mcuTypeId }, off0) ∧
    (off0 + 7 ≤ payload.length →
      parseBoardInfoV (some API_VERSION_1_43) payload 0 = .ok
        ({ r0 with
            configurationState := some (payload.getD off0 0),
            sampleRateHz := some (payload.getD (off0 + 1) 0 +
              256 * payload.getD (off0 + 2) 0),
            configurationProblems := some (payload.getD (off0 + 3) 0 +
              256 * payload.getD (off0 + 4) 0 + 65536 * payload.getD (off0 + 5) 0 +
              16777216 * payload.getD (off0 + 6) 0) },
         off0 + 7)) := by
  simp only [parseBoardInfoV, readM_bind_eq_ok, readM_pure_eq_ok] at h
  obtain ⟨ident, o1, hident, bv, o2, hbv, bt, o3, hbt, tc, o4, htc, tn, o5, htn,
    bn, o6, hbn, mi, o7, hmi, sig, o8, hsig, mcu, o9, hmcu,
    cs, oc, hcs, gated, og, hgated, hfin⟩ := h
  injection hcs with hcs1 hcs2
  subst hcs1
  subst hcs2
  injection hgated with hg1 hg2
  subst hg1
  subst hg2
  injection hfin with hr ho
  subst hr
  subst ho
  refine ⟨⟨rfl, rfl, rfl⟩, ?_, ?_⟩
  · simp only [parseBoardInfo, readM_bind_eq_ok, readM_pure_eq_ok]
    exact ⟨ident, o1, hident, bv, o2, hbv, bt, o3, hbt, tc, o4, htc, tn, o5, htn,
      bn, o6, hbn, mi, o7, hmi, sig, o8, hsig, mcu, _, hmcu, rfl⟩
  · intro hroom
    have hs42 : semverGte API_VERSION_1_43 API_VERSION_1_42 = true := by decide
    have hs43 : semverGte API_VERSION_1_43 API_VERSION_1_43 = true := by decide
    have hr8 : readU8 payload off0 = .ok (payload.getD off0 0, off0 + 1) :=
      readU8_ok (by omega)
    have hr16 : readU16 payload (off0 + 1) = .ok (payload.getD (off0 + 1) 0 +
        256 * payload.getD (off0 + 2) 0, off0 + 3) := by
      have := @readU16_ok payload (off0 + 1) (by omega)
      simpa [Nat.add_assoc] using this
    have hr32 : readU32 payload (off0 + 3) = .ok (payload.getD (off0 + 3) 0 +
        256 * payload.getD (off0 + 4) 0 + 65536 * payload.getD (off0 + 5) 0 +
        16777216 * payload.getD (off0 + 6) 0, off0 + 7) := by
      have := @readU32_ok payload (off0 + 3) (by omega)
      simpa [Nat.add_assoc] using this
    simp only [parseBoardInfoV, hs42, hs43, if_true, readM_bind_eq_ok, readM_pure_eq_ok]
    refine ⟨ident, o1, hident, bv, o2, hbv, bt, o3, hbt, tc, o4, htc, tn, o5, htn,
      bn, o6, hbn, mi, o7, hmi, sig, o8, hsig, mcu, off0, hmcu, ?_⟩
    refine ⟨payload.getD off0 0, off0 + 1, hr8, ?_⟩
    refine ⟨some (payload.getD off0 0), off0 + 1, rfl, ?_⟩
    refine ⟨payload.getD (off0 + 1) 0 + 256 * payload.getD (off0 + 2) 0, off0 + 3,
      hr16, ?_⟩
    refine ⟨payload.getD (off0 + 3) 0 + 256 * payload.getD (off0 + 4) 0 +
      65536 * payload.getD (off0 + 5) 0 + 16777216 * payload.getD (off0 + 6) 0, off0 + 7,
      hr32, ?_⟩
    exact ⟨(some (payload.getD (off0 + 1) 0 + 256 * payload.getD (off0 + 2) 0),
      some (payload.getD (off0 + 3) 0 + 256 * payload.getD (off0 + 4) 0 +
        65536 * payload.getD (off0 + 5) 0 + 16777216 * payload.getD (off0 + 6) 0)),
      off0 + 7, rfl, rfl⟩

/-- Witness for C7: a 51-byte board-info payload (44 bytes of base fields
followed by `configurationState` 5, `sampleRateHz` 11 and
`configurationProblems` 0x04030201).  With ApiVersion unset the decoder
stops at offset 44 with the gated fields omitted; with `"1.43.0"` it
consumes all 51 bytes and includes them. -/
theorem boardInfo_version_gating_witness :
    parseBoardInfoV (some API_VERSION_1_43)
      [65, 66, 67, 68, 1, 0, 2, 3, 0, 0, 0, 9, 9, 9, 9, 9, 9, 9, 9, 9, 9, 9, 9, 9, 9,
       9, 9, 9, 9, 9, 9, 9, 9, 9, 9, 9, 9, 9, 9, 9, 9, 9, 9, 7, 5, 11, 0, 1, 2, 3, 4]
      0 =
    .ok ({ boardIdentifier := "ABCD", boardVersion := 1, boardType := 2,
           targetCapabilities := 3, targetName := "", boardName := "",
           manufacturerId := "",
           signature := [9, 9, 9, 9, 9, 9, 9, 9, 9, 9, 9, 9, 9, 9, 9, 9, 9, 9, 9, 9,
             9, 9, 9, 9, 9, 9, 9, 9, 9, 9, 9, 9],
           mcuTypeId := 7, configurationState := some 5, sampleRateHz := some 11,
           configurationProblems := some 67305985 }, 51) := by
  have h := (boardInfo_version_gating
    [65, 66, 67, 68, 1, 0, 2, 3, 0, 0, 0, 9, 9, 9, 9, 9, 9, 9, 9, 9, 9, 9, 9, 9, 9,
     9, 9, 9, 9, 9, 9, 9, 9, 9, 9, 9, 9, 9, 9, 9, 9, 9, 9, 7, 5, 11, 0, 1, 2, 3, 4]
    { boardIdentifier := "ABCD", boardVersion := 1, boardType := 2,
      targetCapabilities := 3, targetName := "", boardName := "",
      manufacturerId := "",
      signature := [9, 9, 9, 9, 9, 9, 9, 9, 9, 9, 9, 9, 9, 9, 9, 9, 9, 9, 9, 9,
        9, 9, 9, 9, 9, 9, 9, 9, 9, 9, 9, 9],
      mcuTypeId := 7, configurationState := none, sampleRateHz := none,
      configurationProblems := some 0 }
    44 (by decide)).2.2 (by decide)
  simpa using h

end MSP
